import Mathlib

/-!
Verification of the stream ingestion, recovery, and task-gating pipeline of the
mindecho backend, as implemented in `app/services/stream_event_handler.py`,
`app/services/xiaohongshu_event_handler.py` and
`app/services/favorites_service.py`.

The dynamic Python values carried by plugin events are modelled by `JVal`;
Python exceptions are modelled with `Except PyErr`.  The Content Store (items,
detail records, tasks) is modelled by `Store`, and the pipeline operations that
read and mutate it are translated function by function from the source.
-/

/-- Dynamic JSON-like value, modelling the Python values carried by plugin
events.  Dicts are association lists keyed by strings. -/
inductive JVal where
  | null : JVal
  | bool (b : Bool) : JVal
  | int (n : Int) : JVal
  | str (s : String) : JVal
  | list (xs : List JVal) : JVal
  | dict (kvs : List (String × JVal)) : JVal

/-- Python exception kinds raised by the embedded code paths. -/
inductive PyErr where
  | attributeError : PyErr
  | typeError : PyErr
  | valueError : PyErr
deriving DecidableEq

/-- Python truthiness of a value (`bool(x)`). -/
def JVal.truthy : JVal → Bool
  | .null => false
  | .bool b => b
  | .int n => n != 0
  | .str s => s != ""
  | .list xs => !xs.isEmpty
  | .dict kvs => !kvs.isEmpty

/-- Whether the value is a Python dict (`isinstance(x, dict)`). -/
def JVal.isDict : JVal → Bool
  | .dict _ => true
  | _ => false

/-- Whether the value is Python `None`. -/
def JVal.isNull : JVal → Bool
  | .null => true
  | _ => false

/-- Python `str(x)` for the scalar values that reach `str(...)` in the embedded
code.  The textual repr of lists and dicts is abstracted: no embedded code path
inspects that text. -/
def pyStr : JVal → String
  | .null => "None"
  | .bool true => "True"
  | .bool false => "False"
  | .int n => toString n
  | .str s => s
  | .list _ => "<list>"
  | .dict _ => "<dict>"

/-- Python `a or b` on dynamic values. -/
def pyOr (a b : JVal) : JVal := if a.truthy then a else b

/-- Python `v.get(k, dflt)`: association-list lookup on dicts, raising
`AttributeError` on any non-dict value. -/
def JVal.pyGet (v : JVal) (k : String) (dflt : JVal) : Except PyErr JVal :=
  match v with
  | .dict kvs => .ok (((kvs.find? (fun p => p.1 == k)).map Prod.snd).getD dflt)
  | _ => .error .attributeError

/-- Total variant of `get` used where the source already guarded the receiver
with `isinstance(..., dict)`: a non-dict receiver yields the default. -/
def JVal.dGet (v : JVal) (k : String) (dflt : JVal) : JVal :=
  match v with
  | .dict kvs => ((kvs.find? (fun p => p.1 == k)).map Prod.snd).getD dflt
  | _ => dflt

/-- Python `int(x)` for the values that reach `int(...)` in the embedded code. -/
def pyInt : JVal → Except PyErr Int
  | .int n => .ok n
  | .bool b => .ok (if b then 1 else 0)
  | .str s =>
    match s.toInt? with
    | some n => .ok n
    | none => .error .valueError
  | _ => .error .typeError

/-- Python `for x in v`: the sequence of elements, or a `TypeError` for
non-iterable values.  Iterating a string yields its characters and iterating a
dict yields its keys, as in Python. -/
def pyIter : JVal → Except PyErr (List JVal)
  | .list xs => .ok xs
  | .str s => .ok (s.toList.map (fun c => .str (String.mk [c])))
  | .dict kvs => .ok (kvs.map (fun p => .str p.1))
  | _ => .error .typeError

/-- `XiaohongshuCreatorInfo` dataclass.  Fields that the Python code does not
pass through `str(...)` stay dynamic (`JVal`). -/
structure XiaohongshuCreatorInfo where
  user_id : String
  username : JVal
  avatar : JVal
  xsec_token : JVal

/-- `XiaohongshuNoteItemBrief` dataclass (no collection id field: the RPC does
not return one). -/
structure XiaohongshuNoteItemBrief where
  note_id : String
  xsec_token : JVal
  title : JVal
  cover_image : JVal
  creator : XiaohongshuCreatorInfo
  fav_time : String
  statistic : JVal

/-- `XiaohongshuStreamEventData` dataclass. -/
structure XiaohongshuStreamEventData where
  items : List XiaohongshuNoteItemBrief
  collection_id : String
  event_metadata : JVal

/-- Body of the per-item `try` block in `DefaultXiaohongshuEventParser.parse`.
Any exception (e.g. `.get` on a non-dict entry) aborts only this entry.  The
code applies `str(raw.get("id") or raw.get("note_id"))` without checking that
an external id is present at all. -/
def xhsParseNoteExc (raw : JVal) : Except PyErr XiaohongshuNoteItemBrief := do
  let creator_raw := pyOr (← raw.pyGet "author_info" (.dict [])) (.dict [])
  let idv ← raw.pyGet "id" .null
  let nidv ← raw.pyGet "note_id" .null
  let xsec_token ← raw.pyGet "xsec_token" (.str "")
  let title ← raw.pyGet "title" (.str "")
  let cover_image ← raw.pyGet "cover_image" (.str "")
  let c_user_id ← creator_raw.pyGet "user_id" (.str "")
  let c_username ← creator_raw.pyGet "username" (.str "")
  let c_avatar ← creator_raw.pyGet "avatar" (.str "")
  let c_xsec ← creator_raw.pyGet "xsec_token" .null
  let fav_time ← raw.pyGet "fav_time" (.str "0")
  let statistic ← raw.pyGet "statistic" .null
  return {
    note_id := pyStr (pyOr idv nidv)
    xsec_token := xsec_token
    title := title
    cover_image := cover_image
    creator := {
      user_id := pyStr c_user_id
      username := c_username
      avatar := c_avatar
      xsec_token := c_xsec }
    fav_time := pyStr fav_time
    statistic := statistic }

/-- The per-item parse with its `try/except: continue` wrapper. -/
def xhsParseNote (raw : JVal) : Option XiaohongshuNoteItemBrief :=
  (xhsParseNoteExc raw).toOption

/-- `DefaultXiaohongshuEventParser.parse`.  The collection id is extracted from
the event params; the item batch prefers the `added` sub-list.  There is no
surrounding `try`, so an exception from iterating a non-iterable `data` value
propagates to the caller. -/
def xhsParse (event : JVal) : Except PyErr XiaohongshuStreamEventData :=
  match event.pyGet "params" .null with
  | .error e => .error e
  | .ok params0 =>
    let params := pyOr params0 (.dict [])
    match params.pyGet "collection_id" (.str "") with
    | .error e => .error e
    | .ok cidv =>
      let collection_id := pyStr cidv
      match event.pyGet "payload" .null with
      | .error e => .error e
      | .ok payload0 =>
        let payload := pyOr payload0 (.dict [])
        let result := if payload.isDict then payload.dGet "result" .null else .null
        if !(result.isDict && (result.dGet "success" .null).truthy) then
          .ok { items := [], collection_id := collection_id, event_metadata := event }
        else
          let data_block := pyOr (result.dGet "data" .null) (.dict [])
          let added_block :=
            if data_block.isDict then pyOr (data_block.dGet "added" .null) (.dict [])
            else .dict []
          let items_added :=
            if added_block.isDict then pyOr (added_block.dGet "data" .null) (.list [])
            else .list []
          let all_items :=
            if data_block.isDict then pyOr (data_block.dGet "data" .null) (.list [])
            else .list []
          let raw_items := if items_added.truthy then items_added else all_items
          match pyIter raw_items with
          | .error e => .error e
          | .ok raws =>
            .ok { items := raws.filterMap xhsParseNote, collection_id := collection_id,
                  event_metadata := event }

/-- `CreatorInfo` dataclass (bilibili); every field passes through `str(...)`. -/
structure CreatorInfo where
  user_id : String
  username : String
  avatar : String

/-- `VideoItemBrief` dataclass (bilibili). -/
structure VideoItemBrief where
  bvid : String
  collection_id : String
  title : String
  intro : String
  cover : String
  fav_time : Int
  creator : CreatorInfo
  favorite_id : Option String
  pubdate : Option Int

/-- `StreamEventData` dataclass (bilibili). -/
structure StreamEventData where
  items : List VideoItemBrief
  event_metadata : JVal

/-- `CreatorInfo.from_dict`. -/
def CreatorInfo.from_dict (data : JVal) : Except PyErr CreatorInfo := do
  let user_id ← data.pyGet "user_id" (.str "")
  let username ← data.pyGet "username" (.str "")
  let avatar ← data.pyGet "avatar" (.str "")
  return { user_id := pyStr user_id, username := pyStr username, avatar := pyStr avatar }

/-- `VideoItemBrief.from_dict`: returns `none` when the external id (`bvid`) is
missing or empty; the collection id prefers the item dict and only falls back
to the event params value.  Exceptions (e.g. a non-numeric `fav_time`)
propagate to `_parse_items`, which drops the entry. -/
def VideoItemBrief.from_dict (data : JVal) (fallback_collection_id : String) :
    Except PyErr (Option VideoItemBrief) := do
  let bvid := pyStr (← data.pyGet "bvid" (.str ""))
  if bvid == "" then return none
  let creator_data := pyOr (← data.pyGet "creator" .null) (.dict [])
  let favorite_idv ← data.pyGet "id" .null
  let favorite_id := if favorite_idv.isNull then none else some (pyStr favorite_idv)
  let pubdatev ← data.pyGet "pubdate" .null
  let pubdate := if pubdatev.isNull then none else (pyInt pubdatev).toOption
  let collection_id :=
    pyStr (pyOr (← data.pyGet "collection_id" (.str "")) (.str fallback_collection_id))
  let title ← data.pyGet "title" (.str "")
  let intro ← data.pyGet "intro" (.str "")
  let cover ← data.pyGet "cover" (.str "")
  let fav_time ← pyInt (← data.pyGet "fav_time" (.int 0))
  let creator ← CreatorInfo.from_dict creator_data
  return some {
    bvid := bvid
    collection_id := collection_id
    title := pyStr title
    intro := pyStr intro
    cover := pyStr cover
    fav_time := fav_time
    creator := creator
    favorite_id := favorite_id
    pubdate := pubdate }

/-- `BilibiliEventParser._extract_items` without its outer `try`. -/
def bbExtractItemsExc (event : JVal) : Except PyErr (List JVal) := do
  let payload ← event.pyGet "payload" (.dict [])
  if !payload.isDict then return []
  let result := payload.dGet "result" (.dict [])
  if !(result.isDict && (result.dGet "success" .null).truthy) then return []
  let data := result.dGet "data" (.dict [])
  if !data.isDict then return []
  let added := data.dGet "added" (.dict [])
  let fromAdded : Option (List JVal) :=
    if added.isDict then
      match added.dGet "data" (.list []) with
      | .list xs => if !xs.isEmpty then some xs else none
      | _ => none
    else none
  match fromAdded with
  | some xs => return xs
  | none =>
    match data.dGet "data" (.list []) with
    | .list xs => return xs
    | _ => return []

/-- `BilibiliEventParser._extract_items` with its `try/except: return []`. -/
def bbExtractItems (event : JVal) : List JVal :=
  match bbExtractItemsExc event with
  | .ok l => l
  | .error _ => []

/-- `BilibiliEventParser._parse_items`: each entry parses inside its own
`try`; a raising or invalid entry is dropped and the rest continue. -/
def bbParseItems (items : List JVal) (fallback_collection_id : String) :
    List VideoItemBrief :=
  items.foldl (fun acc item =>
    match VideoItemBrief.from_dict item fallback_collection_id with
    | .ok (some v) => acc ++ [v]
    | _ => acc) []

/-- `BilibiliEventParser.parse`.  `event.get("params")` sits outside any
`try`, but the surrounding `handle_event` catches. -/
def bbParse (event : JVal) : Except PyErr StreamEventData := do
  let params := pyOr (← event.pyGet "params" .null) (.dict [])
  let fallback := pyStr (← params.pyGet "collection_id" (.str ""))
  let items := bbExtractItems event
  return { items := bbParseItems items fallback, event_metadata := event }

namespace MindEcho

/-- `XiaohongshuNoteDetail` row: the per-item detail record.  `desc` is the
descriptive field whose non-emptiness is the "details exist" signal; the
placeholder created by the persister has `desc = ""`. -/
structure XhsNoteDetail where
  note_id : String
  xsec_token : JVal
  desc : String

/-- Task status enum. -/
inductive TaskStatus where
  | pending : TaskStatus
  | in_progress : TaskStatus
  | success : TaskStatus
  | failure : TaskStatus
deriving DecidableEq

/-- `Task` row: one downstream processing attempt for a content item. -/
structure Task where
  id : Nat
  favorite_item_id : Nat
  status : TaskStatus
deriving DecidableEq

/-- `FavoriteItem` row restricted to the fields the pipeline claims depend on.
`xiaohongshu_note_details` / `bilibili_video_details` model the 1:1 detail
relationships; timestamps are epoch seconds. -/
structure FavoriteItem where
  id : Nat
  platform_item_id : String
  collection_id : String
  xiaohongshu_note_details : Option XhsNoteDetail
  bilibili_video_details : Bool
  details_fetch_attempts : Nat
  details_last_attempt_at : Option Int
  details_fetch_error : Option String

/-- The Content Store: items, tasks, and fresh-id counters (primary keys). -/
structure Store where
  nextItemId : Nat
  nextTaskId : Nat
  items : List FavoriteItem
  tasks : List Task

/-- `crud_favorites.favorite_item.get_by_platform_item_id`. -/
def getByPlatformItemId (st : Store) (pid : String) : Option FavoriteItem :=
  st.items.find? (fun it => it.platform_item_id == pid)

/-- The `select(Task).where(Task.favorite_item_id == item.id).limit(1)` query:
true when ANY task, of any status, exists for the item. -/
def hasAnyTask (st : Store) (itemId : Nat) : Bool :=
  st.tasks.any (fun t => t.favorite_item_id == itemId)

/-- Number of tasks stored for an item. -/
def taskCountFor (st : Store) (itemId : Nat) : Nat :=
  (st.tasks.filter (fun t => t.favorite_item_id == itemId)).length

/-- Number of content items stored under an external item id. -/
def itemCountFor (st : Store) (pid : String) : Nat :=
  (st.items.filter (fun it => it.platform_item_id == pid)).length

/-- The truthiness test `item.xiaohongshu_note_details and
item.xiaohongshu_note_details.desc`: a detail record with empty `desc` does not
count as details. -/
def xhsHasDetails (it : FavoriteItem) : Bool :=
  match it.xiaohongshu_note_details with
  | some d => d.desc != ""
  | none => false

/-- The bilibili check `item.bilibili_video_details is not None`. -/
def bbHasDetails (it : FavoriteItem) : Bool :=
  it.bilibili_video_details

/-- Python comparison `(now - last).total_seconds() / 3600 > 24` over integer
seconds: real division by 3600 exceeds 24 exactly when the difference exceeds
24 * 3600 seconds. -/
def moreThan24hSince (now t : Int) : Bool :=
  now - t > 24 * 3600

/-- `DefaultXiaohongshuItemPersister._needs_recovery`.  The maximum attempt
count is the hard-coded `max_attempts = 5` of the source. -/
def xhsNeedsRecovery (now : Int) (st : Store) (it : FavoriteItem) : Bool :=
  if !xhsHasDetails it then
    if it.details_fetch_attempts < 5 then true
    else
      match it.details_last_attempt_at with
      | some t => moreThan24hSince now t
      | none => false
  else
    !hasAnyTask st it.id

/-- `BilibiliItemPersister._needs_recovery`; `maxAttempts` models
`settings.BILIBILI_DETAILS_MAX_RETRY_ATTEMPTS`. -/
def bbNeedsRecovery (maxAttempts : Nat) (now : Int) (st : Store) (it : FavoriteItem) : Bool :=
  if !bbHasDetails it then
    if it.details_fetch_attempts < maxAttempts then true
    else
      match it.details_last_attempt_at with
      | some t => moreThan24hSince now t
      | none => false
  else
    !hasAnyTask st it.id

/-- `PersistResult` dataclass (identical in both handler modules). -/
structure PersistResult where
  newly_created : List FavoriteItem
  needs_recovery : List FavoriteItem

/-- `PersistResult.all_items`. -/
def PersistResult.all_items (r : PersistResult) : List FavoriteItem :=
  r.newly_created ++ r.needs_recovery

/-- `PersistResult.total_count`. -/
def PersistResult.total_count (r : PersistResult) : Nat :=
  r.newly_created.length + r.needs_recovery.length

/-- Per-note body of `DefaultXiaohongshuItemPersister.persist_brief_items`:
look up by external id; classify an existing row via the recovery predicate;
otherwise create the row (and, when an `xsec_token` is present, a placeholder
detail record whose `desc` is the empty string).  Author and collection
bookkeeping does not touch items or tasks and is not represented. -/
def xhsPersistOne (now : Int) (collection_id : String) (acc : Store × PersistResult)
    (note : XiaohongshuNoteItemBrief) : Store × PersistResult :=
  let (st, res) := acc
  match getByPlatformItemId st note.note_id with
  | some existing =>
    if xhsNeedsRecovery now st existing then
      (st, { res with needs_recovery := res.needs_recovery ++ [existing] })
    else
      (st, res)
  | none =>
    let detail : Option XhsNoteDetail :=
      if note.xsec_token.truthy then
        some { note_id := note.note_id, xsec_token := note.xsec_token, desc := "" }
      else none
    let db_item : FavoriteItem := {
      id := st.nextItemId
      platform_item_id := note.note_id
      collection_id := collection_id
      xiaohongshu_note_details := detail
      bilibili_video_details := false
      details_fetch_attempts := 0
      details_last_attempt_at := none
      details_fetch_error := none }
    ({ st with nextItemId := st.nextItemId + 1, items := st.items ++ [db_item] },
     { res with newly_created := res.newly_created ++ [db_item] })

/-- `DefaultXiaohongshuItemPersister.persist_brief_items`. -/
def xhsPersistBriefItems (now : Int) (st : Store) (items : List XiaohongshuNoteItemBrief)
    (collection_id : String) : Store × PersistResult :=
  items.foldl (xhsPersistOne now collection_id) (st, ⟨[], []⟩)

/-- Per-item body of `BilibiliItemPersister.persist_brief_items` /
`_persist_single_item`: same lookup-classify-create shape; bilibili creates no
placeholder detail record. -/
def bbPersistOne (maxAttempts : Nat) (now : Int) (acc : Store × PersistResult)
    (item : VideoItemBrief) : Store × PersistResult :=
  let (st, res) := acc
  match getByPlatformItemId st item.bvid with
  | some existing =>
    if bbNeedsRecovery maxAttempts now st existing then
      (st, { res with needs_recovery := res.needs_recovery ++ [existing] })
    else
      (st, res)
  | none =>
    let db_item : FavoriteItem := {
      id := st.nextItemId
      platform_item_id := item.bvid
      collection_id := item.collection_id
      xiaohongshu_note_details := none
      bilibili_video_details := false
      details_fetch_attempts := 0
      details_last_attempt_at := none
      details_fetch_error := none }
    ({ st with nextItemId := st.nextItemId + 1, items := st.items ++ [db_item] },
     { res with newly_created := res.newly_created ++ [db_item] })

/-- `BilibiliItemPersister.persist_brief_items`. -/
def bbPersistBriefItems (maxAttempts : Nat) (now : Int) (st : Store)
    (items : List VideoItemBrief) : Store × PersistResult :=
  items.foldl (bbPersistOne maxAttempts now) (st, ⟨[], []⟩)

/-- Configuration recognised by the pipeline (defaults in `core/config.py`):
max detail-fetch attempts, retry delay in minutes, first-sync threshold. -/
structure Config where
  maxAttempts : Nat
  retryDelayMinutes : Nat
  firstSyncThreshold : Nat

/-- Commit of a mutated ORM row: replace the item with the same primary key. -/
def updateItem (st : Store) (it : FavoriteItem) : Store :=
  { st with items := st.items.map (fun j => if j.id == it.id then it else j) }

/-- Outcome of the external detail-fetch RPC (the world outside the store). -/
inductive FetchOutcome where
  | success (d : XhsNoteDetail) : FetchOutcome
  | failure (err : String) : FetchOutcome
  | exn (err : String) : FetchOutcome

/-- Result of `sync_xiaohongshu_note_details_single`: the final store, the
returned item (on success), and whether the external fetch RPC was invoked. -/
structure SyncSingleResult where
  st : Store
  ret : Option FavoriteItem
  fetched : Bool

/-- `favorites_service.sync_xiaohongshu_note_details_single`: re-reads the item
by external id, gives up before fetching when the attempt counter has reached
the maximum, otherwise increments the counter, stamps the attempt time,
performs the external fetch and persists the outcome.  On success the detail
record is overwritten with the fetched data and the error cleared; there is no
check that details are already present before fetching. -/
def syncXhsNoteDetailsSingle (now : Int) (max_retry_attempts : Nat) (fetch : FetchOutcome)
    (st : Store) (note_id : String) : SyncSingleResult :=
  match getByPlatformItemId st note_id with
  | none => ⟨st, none, false⟩
  | some db_item =>
    if max_retry_attempts ≤ db_item.details_fetch_attempts then ⟨st, none, false⟩
    else
      let it1 := { db_item with
        details_fetch_attempts := db_item.details_fetch_attempts + 1
        details_last_attempt_at := some now }
      let st1 := updateItem st it1
      match fetch with
      | .failure e => ⟨updateItem st1 { it1 with details_fetch_error := some e }, none, true⟩
      | .exn e => ⟨updateItem st1 { it1 with details_fetch_error := some e }, none, true⟩
      | .success d =>
        let it2 := { it1 with xiaohongshu_note_details := some d, details_fetch_error := none }
        ⟨updateItem st1 it2, some it2, true⟩

/-- The four ways the loop body of `DefaultXiaohongshuDetailsSyncer.sync_details`
can treat one item. -/
inductive SyncAction where
  | keepHasDetails : SyncAction
  | skipMaxAttempts : SyncAction
  | deferRetry : SyncAction
  | fetchNow : SyncAction
deriving DecidableEq

/-- Per-item decision of `DefaultXiaohongshuDetailsSyncer.sync_details`: keep
items whose details are already non-empty, permanently skip items whose
attempt counter reached the maximum, defer (schedule a retry) when the retry
delay has not elapsed, otherwise fetch now. -/
def xhsSyncDecision (cfg : Config) (now : Int) (it : FavoriteItem) : SyncAction :=
  if xhsHasDetails it then .keepHasDetails
  else if cfg.maxAttempts ≤ it.details_fetch_attempts then .skipMaxAttempts
  else
    match it.details_last_attempt_at with
    | some t =>
      if now - t < (cfg.retryDelayMinutes : Int) * 60 then .deferRetry else .fetchNow
    | none => .fetchNow

/-- One iteration of the loop body of
`DefaultXiaohongshuDetailsSyncer.sync_details`, threading the store, the items
that ended with a detail record, and the external ids actually fetched. -/
def xhsSyncStep (cfg : Config) (now : Int) (fetch : String → FetchOutcome)
    (acc : Store × List FavoriteItem × List String) (db_item : FavoriteItem) :
    Store × List FavoriteItem × List String :=
  let (st, got, fetched) := acc
  match xhsSyncDecision cfg now db_item with
  | .keepHasDetails => (st, got ++ [db_item], fetched)
  | .skipMaxAttempts => (st, got, fetched)
  | .deferRetry => (st, got, fetched)
  | .fetchNow =>
    let r := syncXhsNoteDetailsSingle now cfg.maxAttempts (fetch db_item.platform_item_id)
      st db_item.platform_item_id
    let fetched1 :=
      if r.fetched then fetched ++ [db_item.platform_item_id] else fetched
    match r.ret with
    | some updated =>
      if updated.xiaohongshu_note_details.isSome then (r.st, got ++ [updated], fetched1)
      else (r.st, got, fetched1)
    | none => (r.st, got, fetched1)

/-- `DefaultXiaohongshuDetailsSyncer.sync_details`: fold over the passed item
snapshots, dispatching on the per-item decision; deferred retries run later as
separate `xhsRetryFireOp` operations. -/
def xhsSyncDetails (cfg : Config) (now : Int) (fetch : String → FetchOutcome) (st : Store)
    (items : List FavoriteItem) : Store × List FavoriteItem × List String :=
  items.foldl (xhsSyncStep cfg now fetch) (st, [], [])

/-- Body of `DefaultXiaohongshuDetailsSyncer._schedule_retry` after its sleep:
a fresh read of current state followed by the single-item fetch (the syncer
passes its own `max_attempts`). -/
def xhsRetryFireOp (cfg : Config) (now : Int) (fetch : FetchOutcome) (st : Store)
    (note_id : String) : SyncSingleResult :=
  match getByPlatformItemId st note_id with
  | none => ⟨st, none, false⟩
  | some _ => syncXhsNoteDetailsSingle now cfg.maxAttempts fetch st note_id

/-- `workshop_service.start_workshop_task`: insert exactly one PENDING task
row for the item. -/
def startWorkshopTask (st : Store) (itemId : Nat) : Store :=
  { st with
    nextTaskId := st.nextTaskId + 1
    tasks := st.tasks ++ [{ id := st.nextTaskId, favorite_item_id := itemId,
                            status := .pending }] }

/-- Per-item body of `DefaultXiaohongshuTaskCreator.create_analysis_tasks`:
require non-empty `desc` on the passed item, skip if ANY task of any status
exists, else create exactly one task (the detached downstream run does not
mutate these rows). -/
def xhsCreateTaskForItem (st : Store) (db_item : FavoriteItem) : Store :=
  if !xhsHasDetails db_item then st
  else if hasAnyTask st db_item.id then st
  else startWorkshopTask st db_item.id

/-- `DefaultXiaohongshuTaskCreator.create_analysis_tasks`. -/
def xhsCreateAnalysisTasks (st : Store) (items : List FavoriteItem) : Store :=
  items.foldl xhsCreateTaskForItem st

/-- `WorkshopTaskCreator._has_details` (bilibili): a fresh read by external id,
then presence of the bilibili detail relationship. -/
def bbHasDetailsFresh (st : Store) (pid : String) : Bool :=
  match getByPlatformItemId st pid with
  | some full_item => bbHasDetails full_item
  | none => false

/-- `WorkshopTaskCreator._create_task_if_eligible` (bilibili): re-check details
via a fresh read, query for ANY existing task of any status (despite the
method name `_has_pending_task`), and only then create one task. -/
def bbCreateTaskIfEligible (st : Store) (item : FavoriteItem) : Store :=
  if !bbHasDetailsFresh st item.platform_item_id then st
  else if hasAnyTask st item.id then st
  else startWorkshopTask st item.id

/-- `WorkshopTaskCreator.create_analysis_tasks`. -/
def bbCreateAnalysisTasks (st : Store) (items : List FavoriteItem) : Store :=
  items.foldl bbCreateTaskIfEligible st

/-- `_is_first_sync`, identical in both orchestrators:
`len(result.newly_created) > threshold`. -/
def isFirstSync (persist_result : PersistResult) (threshold : Nat) : Bool :=
  persist_result.newly_created.length > threshold

/-- Which of the two downstream pipeline stages `handle_event` reached. -/
structure RunFlags where
  ranDetailsSync : Bool
  ranTaskCreation : Bool
deriving DecidableEq

/-- `XiaohongshuStreamEventOrchestrator.handle_event`: parse → persist →
first-sync check → sync details → create tasks.  There is NO surrounding
`try/except`, so a parse exception propagates to the caller.  `fetch` supplies
the external detail-fetch outcomes and `now` the clock for this run. -/
def xhsHandleEvent (cfg : Config) (now : Int) (fetch : String → FetchOutcome)
    (st : Store) (event : JVal) : Except PyErr (Store × RunFlags) :=
  match xhsParse event with
  | .error e => .error e
  | .ok event_data =>
    if event_data.items.isEmpty then .ok (st, ⟨false, false⟩)
    else
      let (st1, persist_result) :=
        xhsPersistBriefItems now st event_data.items event_data.collection_id
      if persist_result.total_count == 0 then .ok (st1, ⟨false, false⟩)
      else if isFirstSync persist_result cfg.firstSyncThreshold then
        .ok (st1, ⟨false, false⟩)
      else
        let (st2, items_with_details, _) :=
          xhsSyncDetails cfg now fetch st1 persist_result.all_items
        if items_with_details.isEmpty then .ok (st2, ⟨true, false⟩)
        else .ok (xhsCreateAnalysisTasks st2 items_with_details, ⟨true, true⟩)

/-- Body of `StreamEventOrchestrator.handle_event` (bilibili) without its
`try/except`.  The bilibili details sync delegates to
`favorites_service.sync_bilibili_videos_details`, abstracted as `bbSync` (its
own `try/except` makes it non-raising, and it creates no tasks). -/
def bbHandleEventRaw (cfg : Config) (bbMaxAttempts : Nat) (now : Int)
    (bbSync : Store → List FavoriteItem → Store) (st : Store) (event : JVal) :
    Except PyErr (Store × RunFlags) :=
  match bbParse event with
  | .error e => .error e
  | .ok event_data =>
    if event_data.items.isEmpty then .ok (st, ⟨false, false⟩)
    else
      let (st1, persist_result) :=
        bbPersistBriefItems bbMaxAttempts now st event_data.items
      if persist_result.total_count == 0 then .ok (st1, ⟨false, false⟩)
      else if isFirstSync persist_result cfg.firstSyncThreshold then
        .ok (st1, ⟨false, false⟩)
      else
        let st2 := bbSync st1 persist_result.all_items
        .ok (bbCreateAnalysisTasks st2 persist_result.all_items, ⟨true, true⟩)

/-- `StreamEventOrchestrator.handle_event` (bilibili): the raw pipeline wrapped
in the top-level `try/except` that logs and swallows every exception (an
exception can only arise in the parse step, before any store mutation). -/
def bbHandleEvent (cfg : Config) (bbMaxAttempts : Nat) (now : Int)
    (bbSync : Store → List FavoriteItem → Store) (st : Store) (event : JVal) :
    Store × RunFlags :=
  match bbHandleEventRaw cfg bbMaxAttempts now bbSync st event with
  | .ok r => r
  | .error _ => (st, ⟨false, false⟩)

/-- One store-mutating operation of the ingestion pipeline: per-platform
persistence, the xiaohongshu details sync (inline or as a deferred retry
firing), and the two task-creation gates.  Parameters carry the event data and
external-world outcomes of that run; snapshot lists model the possibly stale
item objects the orchestrator passes between stages. -/
inductive PipelineOp where
  | xhsPersist (now : Int) (collection_id : String)
      (notes : List XiaohongshuNoteItemBrief) : PipelineOp
  | bbPersist (bbMaxAttempts : Nat) (now : Int) (briefs : List VideoItemBrief) : PipelineOp
  | xhsSync (now : Int) (fetch : String → FetchOutcome)
      (snapshots : List FavoriteItem) : PipelineOp
  | xhsRetryFire (now : Int) (fetch : FetchOutcome) (note_id : String) : PipelineOp
  | xhsCreateTasks (snapshots : List FavoriteItem) : PipelineOp
  | bbCreateTasks (snapshots : List FavoriteItem) : PipelineOp

/-- Apply one pipeline operation, also reporting which external item ids had
their details fetched from the external service during the operation. -/
def stepFetched (cfg : Config) (st : Store) : PipelineOp → Store × List String
  | .xhsPersist now cid notes => ((xhsPersistBriefItems now st notes cid).1, [])
  | .bbPersist maxA now briefs => ((bbPersistBriefItems maxA now st briefs).1, [])
  | .xhsSync now fetch snaps =>
    let (st1, _, fetched) := xhsSyncDetails cfg now fetch st snaps
    (st1, fetched)
  | .xhsRetryFire now fetch nid =>
    let r := xhsRetryFireOp cfg now fetch st nid
    (r.st, if r.fetched then [nid] else [])
  | .xhsCreateTasks snaps => (xhsCreateAnalysisTasks st snaps, [])
  | .bbCreateTasks snaps => (bbCreateAnalysisTasks st snaps, [])

/-- Apply a sequence of pipeline operations, accumulating the fetched ids. -/
def applyOps (cfg : Config) (st : Store) : List PipelineOp → Store × List String
  | [] => (st, [])
  | op :: ops =>
    let p := stepFetched cfg st op
    let q := applyOps cfg p.1 ops
    (q.1, p.2 ++ q.2)

/-- Store well-formedness matching the database constraints: item primary keys
sit below the fresh-id counter and are pairwise distinct. -/
def Store.WF (st : Store) : Prop :=
  (∀ it ∈ st.items, it.id < st.nextItemId) ∧
  st.items.Pairwise (fun a b => a.id ≠ b.id)

/-- The collection id as taken from the event's injected params alone,
mirroring the opening lines of `DefaultXiaohongshuEventParser.parse`. -/
def xhsParamsCollectionId (event : JVal) : Except PyErr String :=
  match event.pyGet "params" .null with
  | .error e => .error e
  | .ok params0 =>
    match (pyOr params0 (.dict [])).pyGet "collection_id" (.str "") with
    | .error e => .error e
    | .ok cidv => .ok (pyStr cidv)

/-- Example configuration matching the defaults of `core/config.py`:
5 max attempts, 5 minutes retry delay, first-sync threshold 50. -/
def exCfg : Config := ⟨5, 5, 50⟩

/-- Example fetched detail record with non-empty `desc`. -/
def exDetail : XhsNoteDetail :=
  { note_id := "n1", xsec_token := .str "tok", desc := "d" }

/-- Example content item that already holds details. -/
def exItemDone : FavoriteItem :=
  { id := 0, platform_item_id := "n1", collection_id := "c1"
    xiaohongshu_note_details := some exDetail, bilibili_video_details := false
    details_fetch_attempts := 1, details_last_attempt_at := some 0
    details_fetch_error := none }

/-- Example task (already successful) for `exItemDone`. -/
def exTask : Task := { id := 0, favorite_item_id := 0, status := .success }

/-- Store holding one fully processed item (details plus a success task). -/
def exStoreDone : Store := ⟨1, 1, [exItemDone], [exTask]⟩

/-- Store holding one item with details but no task yet. -/
def exStoreDetailsNoTask : Store := ⟨1, 0, [exItemDone], []⟩

/-- Example item whose detail-fetch attempts are exhausted. -/
def exItemSaturated : FavoriteItem :=
  { id := 0, platform_item_id := "n1", collection_id := "c1"
    xiaohongshu_note_details := none, bilibili_video_details := false
    details_fetch_attempts := 5, details_last_attempt_at := some 0
    details_fetch_error := some "err" }

/-- Store holding only the saturated item. -/
def exStoreSaturated : Store := ⟨1, 0, [exItemSaturated], []⟩

/-- The empty store. -/
def exEmptyStore : Store := ⟨0, 0, [], []⟩

/-- Example parsed xiaohongshu brief (carrying an xsec token). -/
def exNote : XiaohongshuNoteItemBrief :=
  { note_id := "n2", xsec_token := .str "tok2", title := .str "t"
    cover_image := .str "c"
    creator := { user_id := "u", username := .str "un", avatar := .str "av",
                 xsec_token := .null }
    fav_time := "0", statistic := .null }

/-- Example parsed bilibili brief. -/
def exBrief : VideoItemBrief :=
  { bvid := "b1", collection_id := "col", title := "t", intro := "", cover := ""
    fav_time := 0, creator := { user_id := "u", username := "n", avatar := "a" }
    favorite_id := none, pubdate := none }

/-- Example detail record a retry fetch would bring back. -/
def exFetchedDetail : XhsNoteDetail :=
  { note_id := "n1", xsec_token := .str "tok", desc := "d2" }

/-- Raw bilibili item dict carrying its own collection id "X". -/
def c7Item : JVal :=
  .dict [("bvid", .str "b1"), ("collection_id", .str "X"),
         ("creator", .dict [("user_id", .str "u1"), ("username", .str "u"),
                            ("avatar", .str "a")])]

/-- Bilibili event whose injected params carry collection id "P" while the
payload item carries "X". -/
def c7Event : JVal :=
  .dict [("params", .dict [("collection_id", .str "P")]),
         ("payload", .dict [("result", .dict [("success", .bool true),
           ("data", .dict [("data", .list [c7Item])])])])]

/-- Raw xiaohongshu entry with no external id at all. -/
def c8Raw : JVal := .dict [("title", .str "t")]

/-- Xiaohongshu event re-delivering the already fully processed item `n1`. -/
def exEventN1 : JVal :=
  .dict [("params", .dict [("collection_id", .str "c1")]),
         ("payload", .dict [("result", .dict [("success", .bool true),
           ("data", .dict [("data", .list [.dict [("id", .str "n1")]])])])])]

/-- Xiaohongshu event whose payload `data.data` is the integer 5: iterating it
raises a `TypeError` inside the parse step. -/
def exEventBadData : JVal :=
  .dict [("params", .dict [("collection_id", .str "c1")]),
         ("payload", .dict [("result", .dict [("success", .bool true),
           ("data", .dict [("data", .int 5)])])])]

/-- C2: the recovery predicate on an already-persisted Content Item returns
true iff either (a) the item lacks details and (its attempt counter is below
the configured maximum or more than 24 hours elapsed since the last recorded
attempt), or (b) the item has details but no Task of any status exists; in
particular an item with a non-empty detail record and at least one task is
never flagged for recovery.  Stated for both platform variants of
`_needs_recovery`. -/
theorem c2_needs_recovery_characterisation (now : Int) (st : Store) (it : FavoriteItem)
    (maxAttempts : Nat) :
    (xhsNeedsRecovery now st it = true ↔
      ((xhsHasDetails it = false ∧
        (it.details_fetch_attempts < 5 ∨
          ∃ t, it.details_last_attempt_at = some t ∧ now - t > 24 * 3600)) ∨
       (xhsHasDetails it = true ∧ hasAnyTask st it.id = false))) ∧
    (bbNeedsRecovery maxAttempts now st it = true ↔
      ((bbHasDetails it = false ∧
        (it.details_fetch_attempts < maxAttempts ∨
          ∃ t, it.details_last_attempt_at = some t ∧ now - t > 24 * 3600)) ∨
       (bbHasDetails it = true ∧ hasAnyTask st it.id = false))) ∧
    (xhsHasDetails it = true → hasAnyTask st it.id = true →
      xhsNeedsRecovery now st it = false) ∧
    (bbHasDetails it = true → hasAnyTask st it.id = true →
      bbNeedsRecovery maxAttempts now st it = false) := by
  refine ⟨?_, ?_, ?_, ?_⟩
  · cases hd : xhsHasDetails it
    · cases hl : it.details_last_attempt_at <;>
        by_cases ha : it.details_fetch_attempts < 5 <;>
          simp [xhsNeedsRecovery, hd, hl, ha, moreThan24hSince]
    · simp [xhsNeedsRecovery, hd]
  · cases hd : bbHasDetails it
    · cases hl : it.details_last_attempt_at <;>
        by_cases ha : it.details_fetch_attempts < maxAttempts <;>
          simp [bbNeedsRecovery, hd, hl, ha, moreThan24hSince]
    · simp [bbNeedsRecovery, hd]
  · intro h1 h2
    simp [xhsNeedsRecovery, h1, h2]
  · intro h1 h2
    simp [bbNeedsRecovery, h1, h2]

/-- Witness for C2: the fully processed example item (details plus a success
task) is not flagged for recovery. -/
theorem c2_witness :
    xhsHasDetails exItemDone = true ∧ hasAnyTask exStoreDone 0 = true ∧
    xhsNeedsRecovery 0 exStoreDone exItemDone = false :=
  ⟨rfl, rfl,
    (c2_needs_recovery_characterisation 0 exStoreDone exItemDone 5).2.2.1 rfl rfl⟩

/-- C10: creating a new xiaohongshu Content Item from a brief that carries an
xsec token also creates a placeholder detail record with empty `desc`; every
"has details" check requires a non-empty `desc`, so the placeholder never
counts as details: the fresh item is still classified as lacking details by
the recovery predicate and the details syncer proceeds to fetch. -/
theorem c10_placeholder_never_counts (cfg : Config) (now now2 : Int) (st : Store)
    (note : XiaohongshuNoteItemBrief) (cid : String)
    (hnew : getByPlatformItemId st note.note_id = none)
    (htok : note.xsec_token.truthy = true)
    (hm : 0 < cfg.maxAttempts) :
    (∀ it : FavoriteItem, ∀ d, it.xiaohongshu_note_details = some d → d.desc = "" →
      xhsHasDetails it = false) ∧
    ∃ db_item : FavoriteItem,
      (xhsPersistBriefItems now st [note] cid).2.newly_created = [db_item] ∧
      db_item.xiaohongshu_note_details =
        some { note_id := note.note_id, xsec_token := note.xsec_token, desc := "" } ∧
      xhsHasDetails db_item = false ∧
      xhsNeedsRecovery now2 (xhsPersistBriefItems now st [note] cid).1 db_item = true ∧
      xhsSyncDecision cfg now2 db_item = .fetchNow := by
  have hnle : ¬ (cfg.maxAttempts ≤ 0) := by omega
  constructor
  · intro it d hd hdesc
    simp [xhsHasDetails, hd, hdesc]
  · refine
      ⟨{ id := st.nextItemId, platform_item_id := note.note_id, collection_id := cid
         xiaohongshu_note_details :=
           some { note_id := note.note_id, xsec_token := note.xsec_token, desc := "" }
         bilibili_video_details := false, details_fetch_attempts := 0
         details_last_attempt_at := none, details_fetch_error := none },
       ?_, rfl, rfl, ?_, ?_⟩
    · simp [xhsPersistBriefItems, xhsPersistOne, hnew, htok]
    · simp [xhsNeedsRecovery, xhsHasDetails]
    · simp [xhsSyncDecision, xhsHasDetails, hnle]

/-- Witness for C10 at a concrete brief and the empty store. -/
theorem c10_witness :
    getByPlatformItemId exEmptyStore exNote.note_id = none ∧
    ((∀ it : FavoriteItem, ∀ d, it.xiaohongshu_note_details = some d → d.desc = "" →
        xhsHasDetails it = false) ∧
      ∃ db_item : FavoriteItem,
        (xhsPersistBriefItems 0 exEmptyStore [exNote] "c1").2.newly_created = [db_item] ∧
        db_item.xiaohongshu_note_details =
          some { note_id := exNote.note_id, xsec_token := exNote.xsec_token, desc := "" } ∧
        xhsHasDetails db_item = false ∧
        xhsNeedsRecovery 7 (xhsPersistBriefItems 0 exEmptyStore [exNote] "c1").1 db_item
            = true ∧
        xhsSyncDecision exCfg 7 db_item = .fetchNow) :=
  ⟨rfl, c10_placeholder_never_counts exCfg 0 7 exEmptyStore exNote "c1" rfl rfl
    (by decide)⟩

/-- Counterexample for C7: on a concrete bilibili event whose injected params
carry collection id "P" while the payload item dict carries "X", the parsed
brief takes "X" from the item dict, not "P" from the params. -/
theorem c7_counterexample :
    (bbParse c7Event).toOption.map (fun pd => pd.items.map (fun b => b.collection_id)) =
      some ["X"] ∧
    xhsParamsCollectionId c7Event = .ok "P" ∧ ("X" : String) ≠ "P" := by
  refine ⟨rfl, rfl, by decide⟩

/-- Counterexample for C8: on a concrete xiaohongshu entry with no external id
at all, the parser still produces a brief item, whose id is the string
"None". -/
theorem c8_counterexample :
    (xhsParseNote c8Raw).map (fun b => b.note_id) = some "None" ∧
    c8Raw.dGet "id" .null = .null ∧ c8Raw.dGet "note_id" .null = .null := by
  refine ⟨rfl, rfl, rfl⟩

/-- Counterexample for C6: a parse exception (iterating the integer payload
field `data.data`) propagates out of the xiaohongshu `handle_event`, which has
no top-level `try/except`. -/
theorem c6_counterexample :
    xhsHandleEvent exCfg 0 (fun _ => .failure "e") exEmptyStore exEventBadData =
      .error .typeError := by
  rfl

/-- Counterexample for C9: a retry firing on an item that already has details
(and attempt counter 1 < 5) is not a no-op: the external fetch is performed
and the attempt counter moves from 1 to 2. -/
theorem c9_counterexample :
    xhsHasDetails exItemDone = true ∧
    (xhsRetryFireOp exCfg 100 (.success exFetchedDetail) exStoreDetailsNoTask "n1").fetched
      = true ∧
    ((xhsRetryFireOp exCfg 100 (.success exFetchedDetail) exStoreDetailsNoTask
        "n1").st.items.map (fun it => it.details_fetch_attempts)) = [2] := by
  refine ⟨rfl, rfl, rfl⟩

/-- Counterexample for C4: re-delivery of an already fully processed item gives
a persist result with zero newly created items (below the threshold), yet the
pipeline does not proceed to the details-sync or task-creation steps: it
returns at the `total_count == 0` guard. -/
theorem c4_counterexample :
    ∃ pd : XiaohongshuStreamEventData,
      xhsParse exEventN1 = .ok pd ∧ pd.items.length = 1 ∧
      (xhsPersistBriefItems 0 exStoreDone pd.items pd.collection_id).2.newly_created.length
          ≤ exCfg.firstSyncThreshold ∧
      xhsHandleEvent exCfg 0 (fun _ => .failure "e") exStoreDone exEventN1 =
        .ok (exStoreDone, ⟨false, false⟩) := by
  refine ⟨_, rfl, rfl, by decide, rfl⟩

/-- C9 (amended): a deferred retry re-reads the item's current state from the
database before acting; it is a no-op when the item no longer exists or its
attempt counter has reached the maximum.  But a retry firing while the counter
is below the maximum always performs the external fetch again — the
single-item fetch does not skip when details are already present. -/
theorem c9_retry_rereads_state (cfg : Config) (now : Int) (fetch : FetchOutcome)
    (st : Store) (note_id : String) :
    (getByPlatformItemId st note_id = none →
      xhsRetryFireOp cfg now fetch st note_id = ⟨st, none, false⟩) ∧
    (∀ it, getByPlatformItemId st note_id = some it →
      cfg.maxAttempts ≤ it.details_fetch_attempts →
      xhsRetryFireOp cfg now fetch st note_id = ⟨st, none, false⟩) ∧
    (∀ it, getByPlatformItemId st note_id = some it →
      it.details_fetch_attempts < cfg.maxAttempts →
      (xhsRetryFireOp cfg now fetch st note_id).fetched = true) := by
  refine ⟨?_, ?_, ?_⟩
  · intro h
    simp [xhsRetryFireOp, h]
  · intro it h hle
    simp [xhsRetryFireOp, syncXhsNoteDetailsSingle, h, hle]
  · intro it h hlt
    have h' : ¬ (cfg.maxAttempts ≤ it.details_fetch_attempts) := by omega
    cases fetch <;> simp [xhsRetryFireOp, syncXhsNoteDetailsSingle, h, h']

/-- Witness for C9 (amended) at the saturated example item. -/
theorem c9_witness :
    getByPlatformItemId exStoreSaturated "n1" = some exItemSaturated ∧
    exCfg.maxAttempts ≤ exItemSaturated.details_fetch_attempts ∧
    xhsRetryFireOp exCfg 3 (.failure "x") exStoreSaturated "n1" =
      ⟨exStoreSaturated, none, false⟩ :=
  ⟨rfl, by decide,
    (c9_retry_rereads_state exCfg 3 (.failure "x") exStoreSaturated "n1").2.1
      exItemSaturated rfl (by decide)⟩

/-- C6 (amended): the bilibili `handle_event` catches every pipeline exception
at its top level, while the xiaohongshu `handle_event` has no top-level
handler: it returns normally exactly when the parse step does not raise and
propagates the parse exception otherwise (all later steps handle their
failures per item and never raise).  The subscription manager dispatches
handlers as detached tasks, outside this model. -/
theorem c6_exception_containment (cfg : Config) (bbMaxAttempts : Nat) (now : Int)
    (fetch : String → FetchOutcome) (bbSync : Store → List FavoriteItem → Store)
    (st : Store) (event : JVal) :
    (∀ pd, xhsParse event = .ok pd →
      ∃ r, xhsHandleEvent cfg now fetch st event = .ok r) ∧
    (∀ e, xhsParse event = .error e →
      xhsHandleEvent cfg now fetch st event = .error e) ∧
    (∀ pd, bbParse event = .ok pd →
      ∃ r, bbHandleEventRaw cfg bbMaxAttempts now bbSync st event = .ok r) ∧
    (∀ e, bbHandleEventRaw cfg bbMaxAttempts now bbSync st event = .error e →
      bbHandleEvent cfg bbMaxAttempts now bbSync st event = (st, ⟨false, false⟩)) := by
  refine ⟨?_, ?_, ?_, ?_⟩
  · intro pd h
    simp only [xhsHandleEvent, h]
    repeat' split
    all_goals exact ⟨_, rfl⟩
  · intro e h
    simp [xhsHandleEvent, h]
  · intro pd h
    simp only [bbHandleEventRaw, h]
    repeat' split
    all_goals exact ⟨_, rfl⟩
  · intro e h
    simp [bbHandleEvent, h]

/-- Witness for C6 (amended): the parse exception of the malformed payload
propagates out of the xiaohongshu `handle_event`. -/
theorem c6_witness :
    xhsParse exEventBadData = .error .typeError ∧
    xhsHandleEvent exCfg 0 (fun _ => .failure "e") exEmptyStore exEventBadData =
      .error .typeError :=
  ⟨rfl,
    (c6_exception_containment exCfg 5 0 (fun _ => .failure "e") (fun s _ => s)
      exEmptyStore exEventBadData).2.1 .typeError rfl⟩

/-- C8 (amended): the bilibili parser drops an entry whose external id (bvid)
is missing or empty, and a raising entry, individually — the rest of the batch
survives; the xiaohongshu parser likewise continues past a raising entry but
does NOT drop entries lacking an external id: every parsed brief's id is
`str(raw.get("id") or raw.get("note_id"))`, which is the string "None" when
both fields are absent. -/
theorem c8_malformed_entries (raw bad : JVal) (rest : List JVal) (fb : String) :
    (raw.isDict = true → pyStr (raw.dGet "bvid" (.str "")) = "" →
      VideoItemBrief.from_dict raw fb = .ok none) ∧
    (¬ (∃ v, VideoItemBrief.from_dict bad fb = .ok (some v)) →
      bbParseItems (bad :: rest) fb = bbParseItems rest fb) ∧
    (xhsParseNote bad = none →
      (bad :: rest).filterMap xhsParseNote = rest.filterMap xhsParseNote) ∧
    (∀ b, xhsParseNote raw = some b →
      b.note_id = pyStr (pyOr (raw.dGet "id" .null) (raw.dGet "note_id" .null))) := by
  refine ⟨?_, ?_, ?_, ?_⟩
  · intro hd hempty
    cases raw <;>
      simp_all [VideoItemBrief.from_dict, JVal.pyGet, JVal.isDict, JVal.dGet,
        Bind.bind, Except.bind, Pure.pure, Except.pure]
  · intro h
    cases hfd : VideoItemBrief.from_dict bad fb with
    | error e => simp [bbParseItems, hfd]
    | ok ov =>
      cases ov with
      | none => simp [bbParseItems, hfd]
      | some v => exact absurd ⟨v, hfd⟩ h
  · intro h
    simp [List.filterMap_cons, h]
  · intro b h
    cases raw <;>
      simp_all [xhsParseNote, xhsParseNoteExc, JVal.pyGet, JVal.dGet, Bind.bind,
        Except.bind, Pure.pure, Except.pure, Except.toOption]
    rename_i kvs
    cases hcr : pyOr (((kvs.find? (fun p => p.1 == "author_info")).map Prod.snd).getD
        (JVal.dict [])) (JVal.dict []) <;> simp_all
    subst h
    rfl

/-- Witness for C8 (amended) at concrete entries: an empty dict is dropped by
the bilibili parser, and a raising integer entry is skipped by both parsers
with the rest of the batch intact. -/
theorem c8_witness :
    VideoItemBrief.from_dict (.dict []) "f" = .ok none ∧
    bbParseItems (.int 3 :: [c8Raw]) "f" = bbParseItems [c8Raw] "f" ∧
    (.int 3 :: [c8Raw]).filterMap xhsParseNote = [c8Raw].filterMap xhsParseNote :=
  ⟨(c8_malformed_entries (.dict []) (.int 3) [c8Raw] "f").1 rfl rfl,
   (c8_malformed_entries (.dict []) (.int 3) [c8Raw] "f").2.1
     (by rintro ⟨v, hv⟩; exact nomatch hv),
   (c8_malformed_entries (.dict []) (.int 3) [c8Raw] "f").2.2.1 rfl⟩

/-- C7 (amended): the xiaohongshu parser takes the acting collection id only
from the event's injected params sub-map (its briefs carry no collection
field at all); the bilibili parser instead prefers the collection id found on
the individual item dict, using the params value only as a fallback when the
item dict carries no truthy collection id. -/
theorem c7_collection_id_sources (event data : JVal) (fb : String) :
    (∀ pd, xhsParse event = .ok pd →
      xhsParamsCollectionId event = .ok pd.collection_id) ∧
    (∀ b, VideoItemBrief.from_dict data fb = .ok (some b) →
      b.collection_id = pyStr (pyOr (data.dGet "collection_id" (.str "")) (.str fb))) := by
  constructor
  · intro pd h
    cases hp : event.pyGet "params" JVal.null with
    | error e => simp [xhsParse, hp] at h
    | ok pv =>
      cases hc : (pyOr pv (JVal.dict [])).pyGet "collection_id" (JVal.str "") with
      | error e => simp [xhsParse, hp, hc] at h
      | ok cv =>
        cases hpay : event.pyGet "payload" JVal.null with
        | error e => simp [xhsParse, hp, hc, hpay] at h
        | ok pl =>
          simp only [xhsParse, hp, hc, hpay] at h
          simp only [xhsParamsCollectionId, hp, hc]
          split at h
          all_goals repeat' split at h
          all_goals
            first
              | (subst h; rfl)
              | (simp only [Except.ok.injEq] at h; subst h; rfl)
              | simp at h
  · intro b h
    cases data with
    | dict kvs =>
      simp only [VideoItemBrief.from_dict, JVal.pyGet, Bind.bind, Except.bind, Pure.pure,
        Except.pure] at h
      split at h
      · exact nomatch h
      · split at h
        · exact nomatch h
        · split at h
          · exact nomatch h
          · simp only [Except.ok.injEq, Option.some.injEq] at h
            subst h
            simp [JVal.dGet]
    | null => exact nomatch h
    | bool v => exact nomatch h
    | int v => exact nomatch h
    | str v => exact nomatch h
    | list v => exact nomatch h

/-- Witness for C7 (amended): on the concrete re-delivery event the parsed
collection id equals the params extraction. -/
theorem c7_witness : xhsParamsCollectionId exEventN1 = .ok "c1" :=
  (c7_collection_id_sources exEventN1 c7Item "P").1 _ rfl

/-- C4 (amended): `_is_first_sync(result, threshold)` is true exactly when
`len(result.newly_created) > threshold` (needs-recovery items are not
counted); when it is true the orchestrator returns right after persistence and
neither details-sync nor task-creation runs; when it is false the pipeline
proceeds to those steps only if the persist result is non-empty (a batch whose
items were all dropped returns at the `total_count == 0` guard instead), and
the xiaohongshu orchestrator runs task-creation only when details-sync
returned at least one item. -/
theorem c4_first_sync_guard (cfg : Config) (bbMaxAttempts : Nat) (now : Int)
    (fetch : String → FetchOutcome) (bbSync : Store → List FavoriteItem → Store)
    (st st1 : Store) (event : JVal) (res : PersistResult) (threshold : Nat) :
    (isFirstSync res threshold = true ↔ res.newly_created.length > threshold) ∧
    (∀ pd, xhsParse event = .ok pd → pd.items ≠ [] →
      xhsPersistBriefItems now st pd.items pd.collection_id = (st1, res) →
      (isFirstSync res cfg.firstSyncThreshold = true →
        xhsHandleEvent cfg now fetch st event = .ok (st1, ⟨false, false⟩)) ∧
      (isFirstSync res cfg.firstSyncThreshold = false → res.total_count ≠ 0 →
        ∃ stf, xhsHandleEvent cfg now fetch st event =
          .ok (stf, ⟨true,
            !(xhsSyncDetails cfg now fetch st1 res.all_items).2.1.isEmpty⟩))) ∧
    (∀ pd, bbParse event = .ok pd → pd.items ≠ [] →
      bbPersistBriefItems bbMaxAttempts now st pd.items = (st1, res) →
      (isFirstSync res cfg.firstSyncThreshold = true →
        bbHandleEvent cfg bbMaxAttempts now bbSync st event = (st1, ⟨false, false⟩)) ∧
      (isFirstSync res cfg.firstSyncThreshold = false → res.total_count ≠ 0 →
        ∃ stf, bbHandleEvent cfg bbMaxAttempts now bbSync st event =
          (stf, ⟨true, true⟩))) := by
  refine ⟨?_, ?_, ?_⟩
  · simp [isFirstSync]
  · intro pd hp hne hpr
    have hie : pd.items.isEmpty = false := by
      cases hpi : pd.items with
      | nil => exact absurd hpi hne
      | cons a t => simp
    constructor
    · intro hfs
      cases htot : (res.total_count == 0) <;>
        simp [xhsHandleEvent, hp, hie, hpr, htot, hfs]
    · intro hfs htot
      have htot2 : (res.total_count == 0) = false := beq_eq_false_iff_ne.mpr htot
      simp only [xhsHandleEvent, hp, hie, hpr, htot2, hfs, Bool.false_eq_true, if_false]
      rcases hsd : xhsSyncDetails cfg now fetch st1 res.all_items with ⟨s2, wd, fl⟩
      cases hw : wd.isEmpty <;> simp_all
  · intro pd hp hne hpr
    have hie : pd.items.isEmpty = false := by
      cases hpi : pd.items with
      | nil => exact absurd hpi hne
      | cons a t => simp
    constructor
    · intro hfs
      cases htot : (res.total_count == 0) <;>
        simp [bbHandleEvent, bbHandleEventRaw, hp, hie, hpr, htot, hfs]
    · intro hfs htot
      have htot2 : (res.total_count == 0) = false := beq_eq_false_iff_ne.mpr htot
      simp [bbHandleEvent, bbHandleEventRaw, hp, hie, hpr, htot2, hfs]

/-- Witness for C4 (amended): a fresh single-item event on the empty store is
below the threshold, and the pipeline proceeds to details-sync and (details
having been fetched) task-creation. -/
theorem c4_witness :
    ∃ stf, xhsHandleEvent exCfg 0 (fun _ => .success exFetchedDetail) exEmptyStore exEventN1
      = .ok (stf, ⟨true, true⟩) := by
  have h := ((c4_first_sync_guard exCfg 5 0 (fun _ => .success exFetchedDetail)
      (fun s _ => s) exEmptyStore
      (xhsPersistBriefItems 0 exEmptyStore
        ((xhsParse exEventN1).toOption.getD ⟨[], "", .null⟩).items
        ((xhsParse exEventN1).toOption.getD ⟨[], "", .null⟩).collection_id).1 exEventN1
      (xhsPersistBriefItems 0 exEmptyStore
        ((xhsParse exEventN1).toOption.getD ⟨[], "", .null⟩).items
        ((xhsParse exEventN1).toOption.getD ⟨[], "", .null⟩).collection_id).2 50).2.1
      ((xhsParse exEventN1).toOption.getD ⟨[], "", .null⟩) rfl
      (by intro hx; exact nomatch hx) rfl).2 rfl (by decide)
  exact h

/-- Helper: an empty filter is exactly a missed find?. -/
theorem filter_nil_iff_find?_none {α : Type} (p : α → Bool) (l : List α) :
    (l.filter p).length = 0 ↔ l.find? p = none := by
  induction l with
  | nil => simp
  | cons a t ih =>
    by_cases hpa : p a <;> simp [List.filter_cons, List.find?, hpa, ih]

/-- Zero stored rows under an external id is exactly a missed lookup. -/
theorem itemCountFor_eq_zero_iff (st : Store) (pid : String) :
    itemCountFor st pid = 0 ↔ getByPlatformItemId st pid = none :=
  filter_nil_iff_find?_none _ st.items

/-- Helper: `any` is false exactly when the filter is empty. -/
theorem any_false_iff_count_zero {α : Type} (p : α → Bool) (l : List α) :
    l.any p = false ↔ (l.filter p).length = 0 := by
  induction l with
  | nil => simp
  | cons a t ih =>
    by_cases hpa : p a <;> simp [List.filter_cons, hpa, ih]

/-- The ANY-status task query misses exactly when the item has zero tasks. -/
theorem hasAnyTask_false_iff (st : Store) (iid : Nat) :
    hasAnyTask st iid = false ↔ taskCountFor st iid = 0 :=
  any_false_iff_count_zero _ st.tasks

/-- Helper: find? past a missing list half. -/
theorem find?_append_of_none {α : Type} (p : α → Bool) (l1 l2 : List α)
    (h : l1.find? p = none) : (l1 ++ l2).find? p = l2.find? p := by
  induction l1 with
  | nil => rfl
  | cons a t ih =>
    cases hpa : p a with
    | true => simp [List.find?, hpa] at h
    | false =>
      simp only [List.find?, hpa] at h
      simpa [List.find?, hpa] using ih h

/-- Helper: find? committed on the first list half. -/
theorem find?_append_of_some {α : Type} (p : α → Bool) (l1 l2 : List α) (a : α)
    (h : l1.find? p = some a) : (l1 ++ l2).find? p = some a := by
  induction l1 with
  | nil => simp [List.find?] at h
  | cons x t ih =>
    cases hpx : p x with
    | true => simp_all [List.find?, hpx]
    | false =>
      simp only [List.find?, hpx] at h
      simpa [List.find?, hpx] using ih h

/-- Helper: pairwise-distinct primary keys make rows with equal ids equal. -/
theorem uniqueIds_eq_of_mem {l : List FavoriteItem}
    (hpw : l.Pairwise (fun a b => a.id ≠ b.id)) {x y : FavoriteItem}
    (hx : x ∈ l) (hy : y ∈ l) (hid : x.id = y.id) : x = y := by
  induction l with
  | nil => cases hx
  | cons a t ih =>
    rcases List.pairwise_cons.1 hpw with ⟨ha, hpt⟩
    rcases List.mem_cons.1 hx with rfl | hx2
    · rcases List.mem_cons.1 hy with rfl | hy2
      · rfl
      · exact absurd hid (ha _ hy2)
    · rcases List.mem_cons.1 hy with rfl | hy2
      · exact absurd hid.symm (ha _ hx2)
      · exact ih hpt hx2 hy2

/-- One created task changes the count only for that item. -/
theorem taskCountFor_startWorkshopTask (st : Store) (tid iid : Nat) :
    taskCountFor (startWorkshopTask st tid) iid =
      taskCountFor st iid + (if tid == iid then 1 else 0) := by
  unfold taskCountFor startWorkshopTask
  by_cases h : (tid == iid) = true <;>
    simp [List.filter_append, List.filter, h]

/-- Task counts only read the task table. -/
theorem taskCountFor_tasks_congr (st1 st2 : Store) (iid : Nat)
    (h : st1.tasks = st2.tasks) : taskCountFor st1 iid = taskCountFor st2 iid := by
  unfold taskCountFor
  rw [h]

/-- The xiaohongshu persister never writes tasks. -/
theorem tasks_xhsPersistBriefItems (now : Int) (cid : String) (st : Store)
    (notes : List XiaohongshuNoteItemBrief) :
    (xhsPersistBriefItems now st notes cid).1.tasks = st.tasks := by
  suffices h : ∀ acc : Store × PersistResult,
      ((notes.foldl (xhsPersistOne now cid) acc).1).tasks = acc.1.tasks from
    h (st, ⟨[], []⟩)
  induction notes with
  | nil => intro acc; rfl
  | cons a t ih =>
    intro acc
    rw [List.foldl_cons, ih]
    rcases acc with ⟨st0, res0⟩
    unfold xhsPersistOne
    repeat' split
    all_goals simp_all

/-- The bilibili persister never writes tasks. -/
theorem tasks_bbPersistBriefItems (maxA : Nat) (now : Int) (st : Store)
    (briefs : List VideoItemBrief) :
    (bbPersistBriefItems maxA now st briefs).1.tasks = st.tasks := by
  suffices h : ∀ acc : Store × PersistResult,
      ((briefs.foldl (bbPersistOne maxA now) acc).1).tasks = acc.1.tasks from
    h (st, ⟨[], []⟩)
  induction briefs with
  | nil => intro acc; rfl
  | cons a t ih =>
    intro acc
    rw [List.foldl_cons, ih]
    rcases acc with ⟨st0, res0⟩
    unfold bbPersistOne
    repeat' split
    all_goals simp_all

/-- The single-item detail fetch never writes tasks. -/
theorem tasks_syncSingle (now : Int) (m : Nat) (f : FetchOutcome) (st : Store)
    (nid : String) :
    (syncXhsNoteDetailsSingle now m f st nid).st.tasks = st.tasks := by
  unfold syncXhsNoteDetailsSingle
  cases getByPlatformItemId st nid with
  | none => rfl
  | some it =>
    simp only []
    split
    · rfl
    · cases f <;> rfl



/-- One syncer loop iteration never writes tasks. -/
theorem tasks_xhsSyncStep (cfg : Config) (now : Int) (fetch : String → FetchOutcome)
    (acc : Store × List FavoriteItem × List String) (a : FavoriteItem) :
    (xhsSyncStep cfg now fetch acc a).1.tasks = acc.1.tasks := by
  rcases acc with ⟨st0, got0, f0⟩
  unfold xhsSyncStep
  have hs := tasks_syncSingle now cfg.maxAttempts (fetch a.platform_item_id) st0
    a.platform_item_id
  cases xhsSyncDecision cfg now a with
  | keepHasDetails => rfl
  | skipMaxAttempts => rfl
  | deferRetry => rfl
  | fetchNow =>
    cases hr : (syncXhsNoteDetailsSingle now cfg.maxAttempts (fetch a.platform_item_id)
        st0 a.platform_item_id).ret with
    | none => simp [hr, hs]
    | some updated =>
      by_cases hu : updated.xiaohongshu_note_details.isSome <;> simp [hr, hu, hs]

/-- The details syncer never writes tasks. -/
theorem tasks_xhsSyncDetails (cfg : Config) (now : Int) (fetch : String → FetchOutcome)
    (st : Store) (items : List FavoriteItem) :
    (xhsSyncDetails cfg now fetch st items).1.tasks = st.tasks := by
  suffices h : ∀ acc : Store × List FavoriteItem × List String,
      ((items.foldl (xhsSyncStep cfg now fetch) acc).1).tasks = acc.1.tasks from
    h (st, [], [])
  induction items with
  | nil => intro acc; rfl
  | cons a t ih =>
    intro acc
    rw [List.foldl_cons, ih, tasks_xhsSyncStep]

/-- A deferred retry firing never writes tasks. -/
theorem tasks_xhsRetryFireOp (cfg : Config) (now : Int) (f : FetchOutcome) (st : Store)
    (nid : String) :
    (xhsRetryFireOp cfg now f st nid).st.tasks = st.tasks := by
  unfold xhsRetryFireOp
  have hs := tasks_syncSingle now cfg.maxAttempts f st nid
  split
  · rfl
  · exact hs

/-- The xiaohongshu task gate keeps the per-item task count at most one. -/
theorem taskCount_le_one_xhsCreateOne (st : Store) (a : FavoriteItem) (iid : Nat)
    (h : taskCountFor st iid ≤ 1) :
    taskCountFor (xhsCreateTaskForItem st a) iid ≤ 1 := by
  unfold xhsCreateTaskForItem
  split
  · exact h
  · split
    · exact h
    · rename_i hnd hnt
      rw [taskCountFor_startWorkshopTask]
      by_cases hid : (a.id == iid) = true
      · have hb : hasAnyTask st a.id = false := by
          revert hnt
          cases hasAnyTask st a.id <;> simp
        have hz : taskCountFor st a.id = 0 := (hasAnyTask_false_iff st a.id).1 hb
        have hiid : a.id = iid := by simpa using hid
        rw [← hiid]
        simp [hz]
      · have hid2 : (a.id == iid) = false := by
          revert hid
          cases (a.id == iid) <;> simp
        simp [hid2]
        omega

/-- The bilibili task gate keeps the per-item task count at most one. -/
theorem taskCount_le_one_bbCreateOne (st : Store) (a : FavoriteItem) (iid : Nat)
    (h : taskCountFor st iid ≤ 1) :
    taskCountFor (bbCreateTaskIfEligible st a) iid ≤ 1 := by
  unfold bbCreateTaskIfEligible
  split
  · exact h
  · split
    · exact h
    · rename_i hnd hnt
      rw [taskCountFor_startWorkshopTask]
      by_cases hid : (a.id == iid) = true
      · have hb : hasAnyTask st a.id = false := by
          revert hnt
          cases hasAnyTask st a.id <;> simp
        have hz : taskCountFor st a.id = 0 := (hasAnyTask_false_iff st a.id).1 hb
        have hiid : a.id = iid := by simpa using hid
        rw [← hiid]
        simp [hz]
      · have hid2 : (a.id == iid) = false := by
          revert hid
          cases (a.id == iid) <;> simp
        simp [hid2]
        omega

/-- The xiaohongshu creator over a batch keeps the count at most one. -/
theorem taskCount_le_one_xhsCreate (items : List FavoriteItem) (st : Store) (iid : Nat)
    (h : taskCountFor st iid ≤ 1) :
    taskCountFor (xhsCreateAnalysisTasks st items) iid ≤ 1 := by
  induction items generalizing st with
  | nil => exact h
  | cons a t ih =>
    show taskCountFor (xhsCreateAnalysisTasks (xhsCreateTaskForItem st a) t) iid ≤ 1
    exact ih _ (taskCount_le_one_xhsCreateOne st a iid h)

/-- The bilibili creator over a batch keeps the count at most one. -/
theorem taskCount_le_one_bbCreate (items : List FavoriteItem) (st : Store) (iid : Nat)
    (h : taskCountFor st iid ≤ 1) :
    taskCountFor (bbCreateAnalysisTasks st items) iid ≤ 1 := by
  induction items generalizing st with
  | nil => exact h
  | cons a t ih =>
    show taskCountFor (bbCreateAnalysisTasks (bbCreateTaskIfEligible st a) t) iid ≤ 1
    exact ih _ (taskCount_le_one_bbCreateOne st a iid h)

/-- One pipeline operation keeps the per-item task count at most one. -/
theorem taskCount_le_one_step (cfg : Config) (st : Store) (op : PipelineOp) (iid : Nat)
    (h : taskCountFor st iid ≤ 1) :
    taskCountFor (stepFetched cfg st op).1 iid ≤ 1 := by
  cases op with
  | xhsPersist now cid notes =>
    rw [show (stepFetched cfg st (.xhsPersist now cid notes)).1 =
      (xhsPersistBriefItems now st notes cid).1 from rfl]
    rw [taskCountFor_tasks_congr _ st _ (tasks_xhsPersistBriefItems now cid st notes)]
    exact h
  | bbPersist maxA now briefs =>
    rw [show (stepFetched cfg st (.bbPersist maxA now briefs)).1 =
      (bbPersistBriefItems maxA now st briefs).1 from rfl]
    rw [taskCountFor_tasks_congr _ st _ (tasks_bbPersistBriefItems maxA now st briefs)]
    exact h
  | xhsSync now fetch snaps =>
    rw [show (stepFetched cfg st (.xhsSync now fetch snaps)).1 =
      (xhsSyncDetails cfg now fetch st snaps).1 from rfl]
    rw [taskCountFor_tasks_congr _ st _ (tasks_xhsSyncDetails cfg now fetch st snaps)]
    exact h
  | xhsRetryFire now fetch nid =>
    rw [show (stepFetched cfg st (.xhsRetryFire now fetch nid)).1 =
      (xhsRetryFireOp cfg now fetch st nid).st from rfl]
    rw [taskCountFor_tasks_congr _ st _ (tasks_xhsRetryFireOp cfg now fetch st nid)]
    exact h
  | xhsCreateTasks snaps => exact taskCount_le_one_xhsCreate snaps st iid h
  | bbCreateTasks snaps => exact taskCount_le_one_bbCreate snaps st iid h

/-- C1: for every Content Item, across any sequence of pipeline operations
(persists from new events or duplicate deliveries, detail syncs, deferred
retries, recovery passes and task gates), at most one Task is ever present for
it, because the gate queries for an existing Task of ANY status before
creating one; moreover a Task in any state blocks creation of another. -/
theorem c1_at_most_one_task (cfg : Config) (ops : List PipelineOp) (st : Store)
    (iid : Nat) (h : taskCountFor st iid = 0) :
    taskCountFor (applyOps cfg st ops).1 iid ≤ 1 ∧
    (∀ st2 : Store, ∀ it : FavoriteItem, it.id = iid → hasAnyTask st2 iid = true →
      (xhsCreateTaskForItem st2 it).tasks = st2.tasks ∧
      (bbCreateTaskIfEligible st2 it).tasks = st2.tasks) := by
  constructor
  · have h1 : taskCountFor st iid ≤ 1 := by omega
    clear h
    induction ops generalizing st with
    | nil => exact h1
    | cons op t ih =>
      show taskCountFor (applyOps cfg (stepFetched cfg st op).1 t).1 iid ≤ 1
      exact ih _ (taskCount_le_one_step cfg st op iid h1)
  · intro st2 it hid ht
    constructor
    · unfold xhsCreateTaskForItem
      split
      · rfl
      · split
        · rfl
        · rename_i hna
          rw [hid] at hna
          exact absurd ht hna
    · unfold bbCreateTaskIfEligible
      split
      · rfl
      · split
        · rfl
        · rename_i hna
          rw [hid] at hna
          exact absurd ht hna

/-- Witness for C1: from the empty store, one gate pass on an item with
details creates at most one task, and an existing task blocks the gates. -/
theorem c1_witness :
    taskCountFor exEmptyStore 0 = 0 ∧
    (taskCountFor (applyOps exCfg exEmptyStore [.xhsCreateTasks [exItemDone]]).1 0 ≤ 1 ∧
      (∀ st2 : Store, ∀ it : FavoriteItem, it.id = 0 → hasAnyTask st2 0 = true →
        (xhsCreateTaskForItem st2 it).tasks = st2.tasks ∧
        (bbCreateTaskIfEligible st2 it).tasks = st2.tasks)) :=
  ⟨rfl, c1_at_most_one_task exCfg [.xhsCreateTasks [exItemDone]] exEmptyStore 0 rfl⟩

/-- Helper: updating the row with a given primary key leaves lookups for other
external ids unchanged, provided every row sharing that key carries the
updated row's external id. -/
theorem find?_cons_eq {α : Type} (p : α → Bool) (x : α) (l : List α) :
    (x :: l).find? p = if p x then some x else l.find? p := by
  cases hpx : p x <;> simp [List.find?, hpx]

/-- Helper: updating the row with a given primary key leaves lookups for other
external ids unchanged, provided every row sharing that key carries the
updated row's external id. -/
theorem find?_map_update (l : List FavoriteItem) (newIt : FavoriteItem) (p : String)
    (hq : ∀ j ∈ l, j.id = newIt.id → j.platform_item_id = newIt.platform_item_id)
    (hne : newIt.platform_item_id ≠ p) :
    (l.map (fun j => if j.id == newIt.id then newIt else j)).find?
        (fun it => it.platform_item_id == p) =
      l.find? (fun it => it.platform_item_id == p) := by
  induction l with
  | nil => rfl
  | cons a t ih =>
    have hrest := ih (fun j hj hjid => hq j (List.mem_cons_of_mem a hj) hjid)
    rw [List.map_cons, find?_cons_eq, find?_cons_eq]
    by_cases ha : (a.id == newIt.id) = true
    · have hga : (if (a.id == newIt.id) = true then newIt else a) = newIt := by
        simp [ha]
      have hap : a.platform_item_id = newIt.platform_item_id :=
        hq a (List.mem_cons_self a t) (by simpa using ha)
      have h1 : (newIt.platform_item_id == p) = false := by simpa using hne
      have h2 : (a.platform_item_id == p) = false := by rw [hap]; exact h1
      rw [hga]
      show (if (newIt.platform_item_id == p) = true then some newIt
        else (t.map (fun j => if j.id == newIt.id then newIt else j)).find?
          (fun it => it.platform_item_id == p)) = _
      rw [h1, h2]
      simpa using hrest
    · have hga : (if (a.id == newIt.id) = true then newIt else a) = a := by
        simp [ha]
      rw [hga]
      show (if (a.platform_item_id == p) = true then some a
        else (t.map (fun j => if j.id == newIt.id then newIt else j)).find?
          (fun it => it.platform_item_id == p)) = _
      cases hpa : (a.platform_item_id == p) <;> simpa [hpa] using hrest

/-- Helper: after updating the found row (same id and external id), the lookup
returns the updated row. -/
theorem find?_map_update_self (l : List FavoriteItem) (itQ newIt : FavoriteItem)
    (q : String) (hpw : l.Pairwise (fun a b => a.id ≠ b.id))
    (hfind : l.find? (fun it => it.platform_item_id == q) = some itQ)
    (hid : newIt.id = itQ.id) (hpid : newIt.platform_item_id = q) :
    (l.map (fun j => if j.id == newIt.id then newIt else j)).find?
        (fun it => it.platform_item_id == q) = some newIt := by
  induction l with
  | nil => simp [List.find?] at hfind
  | cons a t ih =>
    rcases List.pairwise_cons.1 hpw with ⟨ha, hpt⟩
    rw [find?_cons_eq] at hfind
    rw [List.map_cons, find?_cons_eq]
    by_cases hap : (a.platform_item_id == q) = true
    · have haq : a = itQ := by
        rw [hap] at hfind
        simpa using hfind
      subst haq
      have hida : (a.id == newIt.id) = true := by simp [hid]
      have hga : (if (a.id == newIt.id) = true then newIt else a) = newIt := by
        simp [hida]
      have hnp : (newIt.platform_item_id == q) = true := by simp [hpid]
      rw [hga]
      show (if (newIt.platform_item_id == q) = true then some newIt
        else (t.map (fun j => if j.id == newIt.id then newIt else j)).find?
          (fun it => it.platform_item_id == q)) = _
      rw [hnp]
      simp
    · have hap2 : (a.platform_item_id == q) = false := by
        revert hap
        cases (a.platform_item_id == q) <;> simp
      rw [hap2] at hfind
      simp only [Bool.false_eq_true, if_false] at hfind
      have hmem : itQ ∈ t := List.mem_of_find?_eq_some hfind
      have hane : (a.id == newIt.id) = false :=
        beq_eq_false_iff_ne.mpr (by rw [hid]; exact ha itQ hmem)
      have hga : (if (a.id == newIt.id) = true then newIt else a) = a := by
        simp [hane]
      rw [hga]
      show (if (a.platform_item_id == q) = true then some a
        else (t.map (fun j => if j.id == newIt.id then newIt else j)).find?
          (fun it => it.platform_item_id == q)) = _
      rw [hap2]
      simpa using ih hpt hfind

/-- Helper: committing a mutated row preserves store well-formedness. -/
theorem WF_updateItem (st : Store) (newIt : FavoriteItem) (h : st.WF) :
    (updateItem st newIt).WF := by
  obtain ⟨hbound, hpw⟩ := h
  have hgid : ∀ j : FavoriteItem,
      ((fun j => if j.id == newIt.id then newIt else j) j).id = j.id := by
    intro j
    by_cases hj : (j.id == newIt.id) = true
    · simp only [hj, if_true]
      exact (by simpa using hj : j.id = newIt.id).symm
    · simp [hj]
  constructor
  · intro it hmem
    rcases List.mem_map.1 hmem with ⟨j, hj, rfl⟩
    rw [hgid j]
    exact hbound j hj
  · rw [show (updateItem st newIt).items =
      st.items.map (fun j => if j.id == newIt.id then newIt else j) from rfl]
    rw [List.pairwise_map]
    refine hpw.imp ?_
    intro a b hab
    rw [hgid a, hgid b]
    exact hab

/-- Facts about one row update targeting the row found under `q`. -/
theorem lookup_facts_updateItem (st : Store) (itQ newIt : FavoriteItem) (q : String)
    (hwf : st.WF)
    (hfind : getByPlatformItemId st q = some itQ)
    (hid : newIt.id = itQ.id) (hpid : newIt.platform_item_id = q) :
    (updateItem st newIt).WF ∧
    getByPlatformItemId (updateItem st newIt) q = some newIt ∧
    (∀ p b, p ≠ q → getByPlatformItemId st p = some b →
      getByPlatformItemId (updateItem st newIt) p = some b) := by
  have hmemQ : itQ ∈ st.items := List.mem_of_find?_eq_some hfind
  have hq : ∀ j ∈ st.items, j.id = newIt.id →
      j.platform_item_id = newIt.platform_item_id := by
    intro j hj hjid
    have hji : j = itQ := uniqueIds_eq_of_mem hwf.2 hj hmemQ (by rw [hjid, hid])
    have hQpid : itQ.platform_item_id = q := by
      have := List.find?_some hfind
      simpa using this
    rw [hji, hQpid, hpid]
  refine ⟨WF_updateItem st newIt hwf, ?_, ?_⟩
  · exact find?_map_update_self st.items itQ newIt q hwf.2 hfind hid hpid
  · intro p b hne hb
    have hne2 : newIt.platform_item_id ≠ p := by
      rw [hpid]
      exact fun hc => hne hc.symm
    show (st.items.map (fun j => if j.id == newIt.id then newIt else j)).find?
        (fun it => it.platform_item_id == p) = some b
    rw [find?_map_update st.items newIt p hq hne2]
    exact hb

/-- Facts about the single-item fetch: it preserves store well-formedness,
leaves other external ids untouched, never decreases the attempt counter of
its target, and is a strict no-op without external call once the counter has
reached the maximum. -/
theorem syncSingle_facts (now : Int) (m : Nat) (f : FetchOutcome) (st : Store)
    (q : String) (hwf : st.WF) :
    (syncXhsNoteDetailsSingle now m f st q).st.WF ∧
    (∀ p b, p ≠ q → getByPlatformItemId st p = some b →
      getByPlatformItemId (syncXhsNoteDetailsSingle now m f st q).st p = some b) ∧
    (∀ b, getByPlatformItemId st q = some b →
      ∃ b2, getByPlatformItemId (syncXhsNoteDetailsSingle now m f st q).st q = some b2 ∧
        b.details_fetch_attempts ≤ b2.details_fetch_attempts) ∧
    (∀ b, getByPlatformItemId st q = some b → m ≤ b.details_fetch_attempts →
      syncXhsNoteDetailsSingle now m f st q = ⟨st, none, false⟩) := by
  cases hl : getByPlatformItemId st q with
  | none =>
    have hres : syncXhsNoteDetailsSingle now m f st q = ⟨st, none, false⟩ := by
      simp [syncXhsNoteDetailsSingle, hl]
    rw [hres]
    refine ⟨hwf, fun p b _ hb => hb, ?_, fun b hb _ => rfl⟩
    intro b hb
    exact nomatch hb
  | some itQ =>
    by_cases hm : m ≤ itQ.details_fetch_attempts
    · have hres : syncXhsNoteDetailsSingle now m f st q = ⟨st, none, false⟩ := by
        simp [syncXhsNoteDetailsSingle, hl, hm]
      rw [hres]
      refine ⟨hwf, fun p b _ hb => hb, ?_, fun b hb hmb => rfl⟩
      intro b hb
      obtain rfl : itQ = b := by simpa using hb
      exact ⟨itQ, hl, le_rfl⟩
    · have hQpid : itQ.platform_item_id = q := by
        have := List.find?_some hl
        simpa using this
      have main : ∀ newIt2 : FavoriteItem,
          newIt2.id = itQ.id → newIt2.platform_item_id = q →
          itQ.details_fetch_attempts + 1 ≤ newIt2.details_fetch_attempts →
          (updateItem (updateItem st { itQ with
              details_fetch_attempts := itQ.details_fetch_attempts + 1
              details_last_attempt_at := some now }) newIt2).WF ∧
          (∀ p b, p ≠ q → getByPlatformItemId st p = some b →
            getByPlatformItemId (updateItem (updateItem st { itQ with
              details_fetch_attempts := itQ.details_fetch_attempts + 1
              details_last_attempt_at := some now }) newIt2) p = some b) ∧
          (∃ b2, getByPlatformItemId (updateItem (updateItem st { itQ with
              details_fetch_attempts := itQ.details_fetch_attempts + 1
              details_last_attempt_at := some now }) newIt2) q = some b2 ∧
            itQ.details_fetch_attempts ≤ b2.details_fetch_attempts) := by
        intro n2 hnid hnpid hnatt
        obtain ⟨hwf1, hfind1, hoth1⟩ :=
          lookup_facts_updateItem st itQ { itQ with
            details_fetch_attempts := itQ.details_fetch_attempts + 1
            details_last_attempt_at := some now } q hwf hl rfl hQpid
        obtain ⟨hwf2, hfind2, hoth2⟩ :=
          lookup_facts_updateItem _ _ n2 q hwf1 hfind1 hnid hnpid
        exact ⟨hwf2, fun p b hne hb => hoth2 p b hne (hoth1 p b hne hb),
          ⟨n2, hfind2, by omega⟩⟩
      cases f with
      | success d =>
        have hres : syncXhsNoteDetailsSingle now m (.success d) st q =
            ⟨updateItem (updateItem st { itQ with
                details_fetch_attempts := itQ.details_fetch_attempts + 1
                details_last_attempt_at := some now })
              { itQ with
                details_fetch_attempts := itQ.details_fetch_attempts + 1
                details_last_attempt_at := some now
                xiaohongshu_note_details := some d
                details_fetch_error := none },
              some { itQ with
                details_fetch_attempts := itQ.details_fetch_attempts + 1
                details_last_attempt_at := some now
                xiaohongshu_note_details := some d
                details_fetch_error := none }, true⟩ := by
          simp [syncXhsNoteDetailsSingle, hl, hm]
        obtain ⟨hw, ho, ha⟩ := main { itQ with
            details_fetch_attempts := itQ.details_fetch_attempts + 1
            details_last_attempt_at := some now
            xiaohongshu_note_details := some d
            details_fetch_error := none } rfl hQpid le_rfl
        rw [hres]
        refine ⟨hw, ho, ?_, ?_⟩
        · intro b hb
          obtain rfl : itQ = b := by simpa using hb
          exact ha
        · intro b hb hmb
          obtain rfl : itQ = b := by simpa using hb
          exact absurd hmb hm
      | failure e =>
        have hres : syncXhsNoteDetailsSingle now m (.failure e) st q =
            ⟨updateItem (updateItem st { itQ with
                details_fetch_attempts := itQ.details_fetch_attempts + 1
                details_last_attempt_at := some now })
              { itQ with
                details_fetch_attempts := itQ.details_fetch_attempts + 1
                details_last_attempt_at := some now
                details_fetch_error := some e }, none, true⟩ := by
          simp [syncXhsNoteDetailsSingle, hl, hm]
        obtain ⟨hw, ho, ha⟩ := main { itQ with
            details_fetch_attempts := itQ.details_fetch_attempts + 1
            details_last_attempt_at := some now
            details_fetch_error := some e } rfl hQpid le_rfl
        rw [hres]
        refine ⟨hw, ho, ?_, ?_⟩
        · intro b hb
          obtain rfl : itQ = b := by simpa using hb
          exact ha
        · intro b hb hmb
          obtain rfl : itQ = b := by simpa using hb
          exact absurd hmb hm
      | exn e =>
        have hres : syncXhsNoteDetailsSingle now m (.exn e) st q =
            ⟨updateItem (updateItem st { itQ with
                details_fetch_attempts := itQ.details_fetch_attempts + 1
                details_last_attempt_at := some now })
              { itQ with
                details_fetch_attempts := itQ.details_fetch_attempts + 1
                details_last_attempt_at := some now
                details_fetch_error := some e }, none, true⟩ := by
          simp [syncXhsNoteDetailsSingle, hl, hm]
        obtain ⟨hw, ho, ha⟩ := main { itQ with
            details_fetch_attempts := itQ.details_fetch_attempts + 1
            details_last_attempt_at := some now
            details_fetch_error := some e } rfl hQpid le_rfl
        rw [hres]
        refine ⟨hw, ho, ?_, ?_⟩
        · intro b hb
          obtain rfl : itQ = b := by simpa using hb
          exact ha
        · intro b hb hmb
          obtain rfl : itQ = b := by simpa using hb
          exact absurd hmb hm

/-- Helper: appending a freshly keyed row preserves store well-formedness. -/
theorem WF_of_append_new (st st2 : Store) (db : FavoriteItem)
    (hdb : db.id = st.nextItemId)
    (hitems : st2.items = st.items ++ [db])
    (hnext : st2.nextItemId = st.nextItemId + 1)
    (h : st.WF) : st2.WF := by
  obtain ⟨hbound, hpw⟩ := h
  constructor
  · intro it hmem
    rw [hitems] at hmem
    rw [hnext]
    rcases List.mem_append.1 hmem with hin | hin
    · exact Nat.lt_succ_of_lt (hbound it hin)
    · have hdbe : it = db := by simpa using hin
      rw [hdbe, hdb]
      exact Nat.lt_succ_self _
  · rw [hitems]
    refine List.pairwise_append.2 ⟨hpw, List.pairwise_singleton _ _, ?_⟩
    intro a ha b hb
    have hdbe : b = db := by simpa using hb
    rw [hdbe, hdb]
    exact Nat.ne_of_lt (hbound a ha)

/-- Helper: a store differing only in tasks keeps well-formedness. -/
theorem WF_of_items_eq (st st2 : Store) (hit : st2.items = st.items)
    (hn : st2.nextItemId = st.nextItemId) (h : st.WF) : st2.WF := by
  obtain ⟨hb, hp⟩ := h
  constructor
  · intro it hm
    rw [hit] at hm
    rw [hn]
    exact hb it hm
  · rw [hit]
    exact hp

/-- One xiaohongshu persist iteration preserves well-formedness and every
existing lookup. -/
theorem xhsPersistOne_facts (now : Int) (cid : String) (st0 : Store)
    (res0 : PersistResult) (note : XiaohongshuNoteItemBrief) (hwf : st0.WF) :
    ((xhsPersistOne now cid (st0, res0) note).1).WF ∧
    ∀ p b, getByPlatformItemId st0 p = some b →
      getByPlatformItemId (xhsPersistOne now cid (st0, res0) note).1 p = some b := by
  cases hl : getByPlatformItemId st0 note.note_id with
  | some ex =>
    have he : (xhsPersistOne now cid (st0, res0) note).1 = st0 := by
      by_cases hnr : xhsNeedsRecovery now st0 ex = true <;>
        simp [xhsPersistOne, hl, hnr]
    rw [he]
    exact ⟨hwf, fun p b hb => hb⟩
  | none =>
    obtain ⟨db, hdbid, hitems, hnext⟩ :
        ∃ db : FavoriteItem, db.id = st0.nextItemId ∧
          (xhsPersistOne now cid (st0, res0) note).1.items = st0.items ++ [db] ∧
          (xhsPersistOne now cid (st0, res0) note).1.nextItemId = st0.nextItemId + 1 := by
      refine
        ⟨{ id := st0.nextItemId, platform_item_id := note.note_id
           collection_id := cid
           xiaohongshu_note_details := if note.xsec_token.truthy then
               some { note_id := note.note_id, xsec_token := note.xsec_token, desc := "" }
             else none
           bilibili_video_details := false, details_fetch_attempts := 0
           details_last_attempt_at := none, details_fetch_error := none },
         rfl, ?_, ?_⟩ <;>
        by_cases htok : note.xsec_token.truthy = true <;>
          simp [xhsPersistOne, hl, htok]
    constructor
    · exact WF_of_append_new st0 _ db hdbid hitems hnext hwf
    · intro p b hb
      show (xhsPersistOne now cid (st0, res0) note).1.items.find?
        (fun it => it.platform_item_id == p) = some b
      rw [hitems]
      exact find?_append_of_some _ _ _ _ hb

/-- One bilibili persist iteration preserves well-formedness and every
existing lookup. -/
theorem bbPersistOne_facts (maxA : Nat) (now : Int) (st0 : Store)
    (res0 : PersistResult) (brief : VideoItemBrief) (hwf : st0.WF) :
    ((bbPersistOne maxA now (st0, res0) brief).1).WF ∧
    ∀ p b, getByPlatformItemId st0 p = some b →
      getByPlatformItemId (bbPersistOne maxA now (st0, res0) brief).1 p = some b := by
  cases hl : getByPlatformItemId st0 brief.bvid with
  | some ex =>
    have he : (bbPersistOne maxA now (st0, res0) brief).1 = st0 := by
      by_cases hnr : bbNeedsRecovery maxA now st0 ex = true <;>
        simp [bbPersistOne, hl, hnr]
    rw [he]
    exact ⟨hwf, fun p b hb => hb⟩
  | none =>
    obtain ⟨db, hdbid, hitems, hnext⟩ :
        ∃ db : FavoriteItem, db.id = st0.nextItemId ∧
          (bbPersistOne maxA now (st0, res0) brief).1.items = st0.items ++ [db] ∧
          (bbPersistOne maxA now (st0, res0) brief).1.nextItemId = st0.nextItemId + 1 := by
      refine
        ⟨{ id := st0.nextItemId, platform_item_id := brief.bvid
           collection_id := brief.collection_id
           xiaohongshu_note_details := none
           bilibili_video_details := false, details_fetch_attempts := 0
           details_last_attempt_at := none, details_fetch_error := none },
         rfl, ?_, ?_⟩ <;> simp [bbPersistOne, hl]
    constructor
    · exact WF_of_append_new st0 _ db hdbid hitems hnext hwf
    · intro p b hb
      show (bbPersistOne maxA now (st0, res0) brief).1.items.find?
        (fun it => it.platform_item_id == p) = some b
      rw [hitems]
      exact find?_append_of_some _ _ _ _ hb

/-- The xiaohongshu persister preserves well-formedness and existing lookups. -/
theorem xhsPersistBriefItems_facts (now : Int) (cid : String) (st : Store)
    (notes : List XiaohongshuNoteItemBrief) (hwf : st.WF) :
    (xhsPersistBriefItems now st notes cid).1.WF ∧
    ∀ p b, getByPlatformItemId st p = some b →
      getByPlatformItemId (xhsPersistBriefItems now st notes cid).1 p = some b := by
  suffices h : ∀ st0 res0, st0.WF →
      ((notes.foldl (xhsPersistOne now cid) (st0, res0)).1).WF ∧
      ∀ p b, getByPlatformItemId st0 p = some b →
        getByPlatformItemId (notes.foldl (xhsPersistOne now cid) (st0, res0)).1 p
          = some b from h st ⟨[], []⟩ hwf
  induction notes with
  | nil => exact fun st0 res0 h0 => ⟨h0, fun p b hb => hb⟩
  | cons a t ih =>
    intro st0 res0 h0
    obtain ⟨hw1, hl1⟩ := xhsPersistOne_facts now cid st0 res0 a h0
    rw [List.foldl_cons]
    rcases hacc : xhsPersistOne now cid (st0, res0) a with ⟨st1, res1⟩
    rw [hacc] at hw1 hl1
    obtain ⟨hw2, hl2⟩ := ih st1 res1 hw1
    exact ⟨hw2, fun p b hb => hl2 p b (hl1 p b hb)⟩

/-- The bilibili persister preserves well-formedness and existing lookups. -/
theorem bbPersistBriefItems_facts (maxA : Nat) (now : Int) (st : Store)
    (briefs : List VideoItemBrief) (hwf : st.WF) :
    (bbPersistBriefItems maxA now st briefs).1.WF ∧
    ∀ p b, getByPlatformItemId st p = some b →
      getByPlatformItemId (bbPersistBriefItems maxA now st briefs).1 p = some b := by
  suffices h : ∀ st0 res0, st0.WF →
      ((briefs.foldl (bbPersistOne maxA now) (st0, res0)).1).WF ∧
      ∀ p b, getByPlatformItemId st0 p = some b →
        getByPlatformItemId (briefs.foldl (bbPersistOne maxA now) (st0, res0)).1 p
          = some b from h st ⟨[], []⟩ hwf
  induction briefs with
  | nil => exact fun st0 res0 h0 => ⟨h0, fun p b hb => hb⟩
  | cons a t ih =>
    intro st0 res0 h0
    obtain ⟨hw1, hl1⟩ := bbPersistOne_facts maxA now st0 res0 a h0
    rw [List.foldl_cons]
    rcases hacc : bbPersistOne maxA now (st0, res0) a with ⟨st1, res1⟩
    rw [hacc] at hw1 hl1
    obtain ⟨hw2, hl2⟩ := ih st1 res1 hw1
    exact ⟨hw2, fun p b hb => hl2 p b (hl1 p b hb)⟩

/-- The task creators change only the task table. -/
theorem items_xhsCreateAnalysisTasks (items : List FavoriteItem) (st : Store) :
    (xhsCreateAnalysisTasks st items).items = st.items ∧
    (xhsCreateAnalysisTasks st items).nextItemId = st.nextItemId := by
  induction items generalizing st with
  | nil => exact ⟨rfl, rfl⟩
  | cons a t ih =>
    obtain ⟨h1, h2⟩ := ih (xhsCreateTaskForItem st a)
    have hone : (xhsCreateTaskForItem st a).items = st.items ∧
        (xhsCreateTaskForItem st a).nextItemId = st.nextItemId := by
      unfold xhsCreateTaskForItem
      split
      · exact ⟨rfl, rfl⟩
      · split
        · exact ⟨rfl, rfl⟩
        · exact ⟨rfl, rfl⟩
    exact ⟨h1.trans hone.1, h2.trans hone.2⟩

/-- The bilibili task creator changes only the task table. -/
theorem items_bbCreateAnalysisTasks (items : List FavoriteItem) (st : Store) :
    (bbCreateAnalysisTasks st items).items = st.items ∧
    (bbCreateAnalysisTasks st items).nextItemId = st.nextItemId := by
  induction items generalizing st with
  | nil => exact ⟨rfl, rfl⟩
  | cons a t ih =>
    obtain ⟨h1, h2⟩ := ih (bbCreateTaskIfEligible st a)
    have hone : (bbCreateTaskIfEligible st a).items = st.items ∧
        (bbCreateTaskIfEligible st a).nextItemId = st.nextItemId := by
      unfold bbCreateTaskIfEligible
      split
      · exact ⟨rfl, rfl⟩
      · split
        · exact ⟨rfl, rfl⟩
        · exact ⟨rfl, rfl⟩
    exact ⟨h1.trans hone.1, h2.trans hone.2⟩

/-- Lookups only read the item table. -/
theorem getByPlatformItemId_items_congr (st1 st2 : Store) (p : String)
    (h : st1.items = st2.items) :
    getByPlatformItemId st1 p = getByPlatformItemId st2 p := by
  unfold getByPlatformItemId
  rw [h]

/-- One syncer loop iteration preserves well-formedness, keeps attempt
counters monotone, and fetches a saturated item's id never. -/
theorem xhsSyncStep_facts (cfg : Config) (now : Int) (fetch : String → FetchOutcome)
    (st0 : Store) (got0 : List FavoriteItem) (f0 : List String) (snap : FavoriteItem)
    (p : String) (a : Nat) (hwf : st0.WF)
    (h : ∃ b, getByPlatformItemId st0 p = some b ∧ a ≤ b.details_fetch_attempts) :
    (xhsSyncStep cfg now fetch (st0, got0, f0) snap).1.WF ∧
    (∃ b, getByPlatformItemId (xhsSyncStep cfg now fetch (st0, got0, f0) snap).1 p
        = some b ∧ a ≤ b.details_fetch_attempts) ∧
    (cfg.maxAttempts ≤ a → p ∉ f0 →
      p ∉ (xhsSyncStep cfg now fetch (st0, got0, f0) snap).2.2) := by
  unfold xhsSyncStep
  cases xhsSyncDecision cfg now snap with
  | keepHasDetails => exact ⟨hwf, h, fun _ hnp => hnp⟩
  | skipMaxAttempts => exact ⟨hwf, h, fun _ hnp => hnp⟩
  | deferRetry => exact ⟨hwf, h, fun _ hnp => hnp⟩
  | fetchNow =>
    obtain ⟨b0, hb0, hab0⟩ := h
    obtain ⟨hwS, hothS, hmonS, hsatS⟩ := syncSingle_facts now cfg.maxAttempts
      (fetch snap.platform_item_id) st0 snap.platform_item_id hwf
    have hcommon : ∃ b, getByPlatformItemId (syncXhsNoteDetailsSingle now cfg.maxAttempts
        (fetch snap.platform_item_id) st0 snap.platform_item_id).st p = some b ∧
        a ≤ b.details_fetch_attempts := by
      by_cases hpq : snap.platform_item_id = p
      · have hb0q : getByPlatformItemId st0 snap.platform_item_id = some b0 := by
          rw [hpq]
          exact hb0
        obtain ⟨b2, hb2, hab⟩ := hmonS b0 hb0q
        refine ⟨b2, ?_, le_trans hab0 hab⟩
        rw [← hpq]
        exact hb2
      · exact ⟨b0, hothS p b0 (fun hc => hpq hc.symm) hb0, hab0⟩
    have hnotin : cfg.maxAttempts ≤ a → p ∉ f0 →
        p ∉ (if (syncXhsNoteDetailsSingle now cfg.maxAttempts (fetch snap.platform_item_id)
            st0 snap.platform_item_id).fetched = true
          then f0 ++ [snap.platform_item_id] else f0) := by
      intro hma hnf
      by_cases hpq : snap.platform_item_id = p
      · have hb0q : getByPlatformItemId st0 snap.platform_item_id = some b0 := by
          rw [hpq]
          exact hb0
        have hmb0 : cfg.maxAttempts ≤ b0.details_fetch_attempts := le_trans hma hab0
        rw [hsatS b0 hb0q hmb0]
        simpa using hnf
      · cases hf : (syncXhsNoteDetailsSingle now cfg.maxAttempts
            (fetch snap.platform_item_id) st0 snap.platform_item_id).fetched
        · simpa [hf] using hnf
        · simp only [hf, if_true]
          intro hmem
          rcases List.mem_append.1 hmem with hm1 | hm2
          · exact hnf hm1
          · have hps : p = snap.platform_item_id := by simpa using hm2
            exact hpq hps.symm
    cases hr : (syncXhsNoteDetailsSingle now cfg.maxAttempts (fetch snap.platform_item_id)
        st0 snap.platform_item_id).ret with
    | none =>
      simp only [hr]
      exact ⟨hwS, hcommon, hnotin⟩
    | some u =>
      by_cases hu : u.xiaohongshu_note_details.isSome = true <;>
        simp only [hr, hu, if_true, if_false] <;>
        exact ⟨hwS, hcommon, hnotin⟩

/-- The syncer fold preserves well-formedness, attempt monotonicity and the
no-fetch property for saturated items. -/
theorem xhsSyncFold_facts (cfg : Config) (now : Int) (fetch : String → FetchOutcome)
    (snaps : List FavoriteItem) (p : String) (a : Nat) :
    ∀ acc : Store × List FavoriteItem × List String, acc.1.WF →
    (∃ b, getByPlatformItemId acc.1 p = some b ∧ a ≤ b.details_fetch_attempts) →
    (cfg.maxAttempts ≤ a → p ∉ acc.2.2) →
    ((snaps.foldl (xhsSyncStep cfg now fetch) acc).1.WF ∧
     (∃ b, getByPlatformItemId (snaps.foldl (xhsSyncStep cfg now fetch) acc).1 p = some b ∧
        a ≤ b.details_fetch_attempts) ∧
     (cfg.maxAttempts ≤ a → p ∉ (snaps.foldl (xhsSyncStep cfg now fetch) acc).2.2)) := by
  induction snaps with
  | nil => exact fun acc hw h hf => ⟨hw, h, hf⟩
  | cons s t ih =>
    intro acc hw h hf
    rcases acc with ⟨st0, got0, f0⟩
    rw [List.foldl_cons]
    obtain ⟨hw1, h1, hf1⟩ := xhsSyncStep_facts cfg now fetch st0 got0 f0 s p a hw h
    exact ih (xhsSyncStep cfg now fetch (st0, got0, f0) s) hw1 h1
      (fun hma => hf1 hma (hf hma))

/-- Firing a deferred retry is exactly the single-item fetch. -/
theorem xhsRetryFireOp_eq (cfg : Config) (now : Int) (f : FetchOutcome) (st : Store)
    (nid : String) :
    xhsRetryFireOp cfg now f st nid =
      syncXhsNoteDetailsSingle now cfg.maxAttempts f st nid := by
  unfold xhsRetryFireOp
  split
  · rename_i hl
    simp [syncXhsNoteDetailsSingle, hl]
  · rfl

/-- One pipeline operation preserves well-formedness, keeps attempt counters
monotone, and never fetches a saturated item. -/
theorem step_attempts_facts (cfg : Config) (st : Store) (op : PipelineOp) (p : String)
    (a : Nat) (hwf : st.WF)
    (h : ∃ b, getByPlatformItemId st p = some b ∧ a ≤ b.details_fetch_attempts) :
    (stepFetched cfg st op).1.WF ∧
    (∃ b, getByPlatformItemId (stepFetched cfg st op).1 p = some b ∧
      a ≤ b.details_fetch_attempts) ∧
    (cfg.maxAttempts ≤ a → p ∉ (stepFetched cfg st op).2) := by
  obtain ⟨b0, hb0, hab0⟩ := h
  cases op with
  | xhsPersist now cid notes =>
    obtain ⟨hw, hl⟩ := xhsPersistBriefItems_facts now cid st notes hwf
    exact ⟨hw, ⟨b0, hl p b0 hb0, hab0⟩, fun _ => List.not_mem_nil p⟩
  | bbPersist maxA now briefs =>
    obtain ⟨hw, hl⟩ := bbPersistBriefItems_facts maxA now st briefs hwf
    exact ⟨hw, ⟨b0, hl p b0 hb0, hab0⟩, fun _ => List.not_mem_nil p⟩
  | xhsSync now fetch snaps =>
    have hfold := xhsSyncFold_facts cfg now fetch snaps p a (st, [], []) hwf
      ⟨b0, hb0, hab0⟩ (fun _ => List.not_mem_nil p)
    exact ⟨hfold.1, hfold.2.1, hfold.2.2⟩
  | xhsRetryFire now f nid =>
    have heq : stepFetched cfg st (.xhsRetryFire now f nid) =
        ((syncXhsNoteDetailsSingle now cfg.maxAttempts f st nid).st,
          if (syncXhsNoteDetailsSingle now cfg.maxAttempts f st nid).fetched then [nid]
          else []) := by
      simp [stepFetched, xhsRetryFireOp_eq]
    rw [heq]
    obtain ⟨hwS, hothS, hmonS, hsatS⟩ := syncSingle_facts now cfg.maxAttempts f st nid hwf
    refine ⟨hwS, ?_, ?_⟩
    · by_cases hpq : nid = p
      · subst hpq
        obtain ⟨b2, hb2, hab⟩ := hmonS b0 hb0
        exact ⟨b2, hb2, le_trans hab0 hab⟩
      · exact ⟨b0, hothS p b0 (fun hc => hpq hc.symm) hb0, hab0⟩
    · intro hma
      by_cases hpq : nid = p
      · subst hpq
        have hmb0 : cfg.maxAttempts ≤ b0.details_fetch_attempts := le_trans hma hab0
        rw [hsatS b0 hb0 hmb0]
        simp
      · cases hf : (syncXhsNoteDetailsSingle now cfg.maxAttempts f st nid).fetched
        · simp [hf]
        · simp only [hf, if_true]
          intro hmem
          have hps : p = nid := by simpa using hmem
          exact hpq hps.symm
  | xhsCreateTasks snaps =>
    obtain ⟨hit, hn⟩ := items_xhsCreateAnalysisTasks snaps st
    refine ⟨WF_of_items_eq st _ hit hn hwf, ⟨b0, ?_, hab0⟩, fun _ => List.not_mem_nil p⟩
    show getByPlatformItemId (xhsCreateAnalysisTasks st snaps) p = some b0
    rw [getByPlatformItemId_items_congr _ st p hit]
    exact hb0
  | bbCreateTasks snaps =>
    obtain ⟨hit, hn⟩ := items_bbCreateAnalysisTasks snaps st
    refine ⟨WF_of_items_eq st _ hit hn hwf, ⟨b0, ?_, hab0⟩, fun _ => List.not_mem_nil p⟩
    show getByPlatformItemId (bbCreateAnalysisTasks st snaps) p = some b0
    rw [getByPlatformItemId_items_congr _ st p hit]
    exact hb0

/-- Whole-trace version of the per-operation facts. -/
theorem applyOps_attempts_facts (cfg : Config) (ops : List PipelineOp) :
    ∀ st : Store, ∀ p : String, ∀ a : Nat, st.WF →
    (∃ b, getByPlatformItemId st p = some b ∧ a ≤ b.details_fetch_attempts) →
    ((applyOps cfg st ops).1.WF ∧
     (∃ b, getByPlatformItemId (applyOps cfg st ops).1 p = some b ∧
        a ≤ b.details_fetch_attempts) ∧
     (cfg.maxAttempts ≤ a → p ∉ (applyOps cfg st ops).2)) := by
  induction ops with
  | nil => exact fun st p a hw h => ⟨hw, h, fun _ => List.not_mem_nil p⟩
  | cons op t ih =>
    intro st p a hw h
    obtain ⟨hw1, h1, hf1⟩ := step_attempts_facts cfg st op p a hw h
    obtain ⟨hw2, h2, hf2⟩ := ih (stepFetched cfg st op).1 p a hw1 h1
    refine ⟨hw2, h2, ?_⟩
    intro hma
    show p ∉ (stepFetched cfg st op).2 ++ (applyOps cfg (stepFetched cfg st op).1 t).2
    intro hmem
    rcases List.mem_append.1 hmem with hm1 | hm2
    · exact hf1 hma hm1
    · exact hf2 hma hm2

/-- C5: once an item's detail-fetch attempt counter has reached the configured
maximum, the single-item fetch returns without fetching and without changing
the store, the syncer loop decides to skip the item permanently, and across any
further sequence of pipeline operations the item's external id is never
fetched while its attempt counter only ever grows and stays saturated. -/
theorem c5_bounded_retries (cfg : Config) (ops : List PipelineOp) (st : Store)
    (pid : String) (it : FavoriteItem) (hwf : st.WF)
    (hit : getByPlatformItemId st pid = some it)
    (hmax : cfg.maxAttempts ≤ it.details_fetch_attempts) :
    (∀ now f, syncXhsNoteDetailsSingle now cfg.maxAttempts f st pid =
      ⟨st, none, false⟩) ∧
    (xhsHasDetails it = false →
      ∀ now, xhsSyncDecision cfg now it = SyncAction.skipMaxAttempts) ∧
    pid ∉ (applyOps cfg st ops).2 ∧
    (∃ it2, getByPlatformItemId (applyOps cfg st ops).1 pid = some it2 ∧
      it.details_fetch_attempts ≤ it2.details_fetch_attempts ∧
      cfg.maxAttempts ≤ it2.details_fetch_attempts) := by
  obtain ⟨_, ⟨it2, h2, hle⟩, hf2⟩ := applyOps_attempts_facts cfg ops st pid
    it.details_fetch_attempts hwf ⟨it, hit, Nat.le_refl _⟩
  refine ⟨?_, ?_, hf2 hmax, ⟨it2, h2, hle, le_trans hmax hle⟩⟩
  · intro now f
    exact (syncSingle_facts now cfg.maxAttempts f st pid hwf).2.2.2 it hit hmax
  · intro hnd now
    simp [xhsSyncDecision, hnd, hmax]

/-- Witness for C5 on the saturated example store. -/
theorem c5_witness :
    (exStoreSaturated.WF ∧
     getByPlatformItemId exStoreSaturated "n1" = some exItemSaturated ∧
     exCfg.maxAttempts ≤ exItemSaturated.details_fetch_attempts) ∧
    ((∀ now f, syncXhsNoteDetailsSingle now exCfg.maxAttempts f exStoreSaturated "n1" =
        ⟨exStoreSaturated, none, false⟩) ∧
     (xhsHasDetails exItemSaturated = false →
       ∀ now, xhsSyncDecision exCfg now exItemSaturated = SyncAction.skipMaxAttempts) ∧
     "n1" ∉ (applyOps exCfg exStoreSaturated
        [.xhsSync 3 (fun _ => .failure "x") [exItemSaturated],
         .xhsRetryFire 3 (.failure "x") "n1"]).2 ∧
     (∃ it2, getByPlatformItemId (applyOps exCfg exStoreSaturated
          [.xhsSync 3 (fun _ => .failure "x") [exItemSaturated],
           .xhsRetryFire 3 (.failure "x") "n1"]).1 "n1" = some it2 ∧
        exItemSaturated.details_fetch_attempts ≤ it2.details_fetch_attempts ∧
        exCfg.maxAttempts ≤ it2.details_fetch_attempts)) :=
  have hwf : exStoreSaturated.WF := by
    constructor
    · intro x hx
      rw [show exStoreSaturated.items = [exItemSaturated] from rfl] at hx
      simp only [List.mem_singleton] at hx
      subst hx
      decide
    · rw [show exStoreSaturated.items = [exItemSaturated] from rfl]
      exact List.pairwise_singleton _ _
  ⟨⟨hwf, rfl, by decide⟩,
   c5_bounded_retries exCfg
     [.xhsSync 3 (fun _ => .failure "x") [exItemSaturated],
      .xhsRetryFire 3 (.failure "x") "n1"]
     exStoreSaturated "n1" exItemSaturated hwf rfl (by decide)⟩

/-- Persisting a single fresh xiaohongshu brief appends exactly one row and
reports it as newly created. -/
theorem xhsPersist_fresh (now : Int) (cid : String) (st : Store)
    (note : XiaohongshuNoteItemBrief)
    (hN : getByPlatformItemId st note.note_id = none) :
    ∃ d : FavoriteItem, d.platform_item_id = note.note_id ∧
      (xhsPersistBriefItems now st [note] cid).1.items = st.items ++ [d] ∧
      (xhsPersistBriefItems now st [note] cid).2.newly_created = [d] ∧
      (xhsPersistBriefItems now st [note] cid).2.needs_recovery = [] := by
  refine ⟨⟨st.nextItemId, note.note_id, cid,
      (if note.xsec_token.truthy then
        some ⟨note.note_id, note.xsec_token, ""⟩
      else none),
      false, 0, none, none⟩,
    rfl, ?_, ?_, ?_⟩ <;>
  simp [xhsPersistBriefItems, xhsPersistOne, hN]

/-- Persisting a single fresh bilibili brief appends exactly one row and
reports it as newly created. -/
theorem bbPersist_fresh (maxA : Nat) (now : Int) (st : Store) (brief : VideoItemBrief)
    (hN : getByPlatformItemId st brief.bvid = none) :
    ∃ d : FavoriteItem, d.platform_item_id = brief.bvid ∧
      (bbPersistBriefItems maxA now st [brief]).1.items = st.items ++ [d] ∧
      (bbPersistBriefItems maxA now st [brief]).2.newly_created = [d] ∧
      (bbPersistBriefItems maxA now st [brief]).2.needs_recovery = [] := by
  refine ⟨⟨st.nextItemId, brief.bvid, brief.collection_id, none, false, 0, none, none⟩,
    rfl, ?_, ?_, ?_⟩ <;>
  simp [bbPersistBriefItems, bbPersistOne, hN]

/-- Persisting a xiaohongshu brief whose id already exists leaves the store
unchanged and never reports a new creation. -/
theorem xhsPersist_existing (now : Int) (cid : String) (st : Store)
    (note : XiaohongshuNoteItemBrief) (ex : FavoriteItem)
    (hS : getByPlatformItemId st note.note_id = some ex) :
    (xhsPersistBriefItems now st [note] cid).1 = st ∧
    (xhsPersistBriefItems now st [note] cid).2.newly_created = [] ∧
    ((xhsPersistBriefItems now st [note] cid).2.needs_recovery = [ex] ∨
     (xhsPersistBriefItems now st [note] cid).2.needs_recovery = []) := by
  refine ⟨?_, ?_, ?_⟩ <;>
    simp only [xhsPersistBriefItems, List.foldl_cons, List.foldl_nil, xhsPersistOne, hS]
  · split <;> rfl
  · split <;> rfl
  · split
    · left
      rfl
    · right
      rfl

/-- Persisting a bilibili brief whose id already exists leaves the store
unchanged and never reports a new creation. -/
theorem bbPersist_existing (maxA : Nat) (now : Int) (st : Store)
    (brief : VideoItemBrief) (ex : FavoriteItem)
    (hS : getByPlatformItemId st brief.bvid = some ex) :
    (bbPersistBriefItems maxA now st [brief]).1 = st ∧
    (bbPersistBriefItems maxA now st [brief]).2.newly_created = [] ∧
    ((bbPersistBriefItems maxA now st [brief]).2.needs_recovery = [ex] ∨
     (bbPersistBriefItems maxA now st [brief]).2.needs_recovery = []) := by
  refine ⟨?_, ?_, ?_⟩ <;>
    simp only [bbPersistBriefItems, List.foldl_cons, List.foldl_nil, bbPersistOne, hS]
  · split <;> rfl
  · split <;> rfl
  · split
    · left
      rfl
    · right
      rfl

/-- C3: persisting the same brief item (same external id) twice never creates
two content items, for both handlers: on a fresh id the first persist stores
exactly one row and reports exactly one newly-created item; the second persist
looks the row up by external id, leaves the store unchanged, reports nothing
as newly created, and classifies the existing row as needs-recovery or drops
it silently. -/
theorem c3_idempotent_persistence (now1 now2 : Int) (maxA : Nat) (st : Store)
    (cid : String) (note : XiaohongshuNoteItemBrief) (brief : VideoItemBrief)
    (hx : itemCountFor st note.note_id = 0)
    (hb : itemCountFor st brief.bvid = 0) :
    (itemCountFor (xhsPersistBriefItems now1 st [note] cid).1 note.note_id = 1 ∧
     (xhsPersistBriefItems now1 st [note] cid).2.newly_created.length = 1 ∧
     (xhsPersistBriefItems now2 (xhsPersistBriefItems now1 st [note] cid).1
        [note] cid).1 = (xhsPersistBriefItems now1 st [note] cid).1 ∧
     (xhsPersistBriefItems now2 (xhsPersistBriefItems now1 st [note] cid).1
        [note] cid).2.newly_created = [] ∧
     (∃ ex, getByPlatformItemId (xhsPersistBriefItems now1 st [note] cid).1
          note.note_id = some ex ∧
       ((xhsPersistBriefItems now2 (xhsPersistBriefItems now1 st [note] cid).1
           [note] cid).2.needs_recovery = [ex] ∨
        (xhsPersistBriefItems now2 (xhsPersistBriefItems now1 st [note] cid).1
           [note] cid).2.needs_recovery = []))) ∧
    (itemCountFor (bbPersistBriefItems maxA now1 st [brief]).1 brief.bvid = 1 ∧
     (bbPersistBriefItems maxA now1 st [brief]).2.newly_created.length = 1 ∧
     (bbPersistBriefItems maxA now2 (bbPersistBriefItems maxA now1 st [brief]).1
        [brief]).1 = (bbPersistBriefItems maxA now1 st [brief]).1 ∧
     (bbPersistBriefItems maxA now2 (bbPersistBriefItems maxA now1 st [brief]).1
        [brief]).2.newly_created = [] ∧
     (∃ ex, getByPlatformItemId (bbPersistBriefItems maxA now1 st [brief]).1
          brief.bvid = some ex ∧
       ((bbPersistBriefItems maxA now2 (bbPersistBriefItems maxA now1 st [brief]).1
           [brief]).2.needs_recovery = [ex] ∨
        (bbPersistBriefItems maxA now2 (bbPersistBriefItems maxA now1 st [brief]).1
           [brief]).2.needs_recovery = []))) := by
  have hN : getByPlatformItemId st note.note_id = none :=
    (itemCountFor_eq_zero_iff st note.note_id).1 hx
  have hBN : getByPlatformItemId st brief.bvid = none :=
    (itemCountFor_eq_zero_iff st brief.bvid).1 hb
  have hfilx : st.items.filter (fun it => it.platform_item_id == note.note_id) = [] :=
    List.length_eq_zero.mp hx
  have hfilb : st.items.filter (fun it => it.platform_item_id == brief.bvid) = [] :=
    List.length_eq_zero.mp hb
  constructor
  · obtain ⟨d, hdpid, hitems, hnew, _⟩ := xhsPersist_fresh now1 cid st note hN
    have hlook1 : getByPlatformItemId (xhsPersistBriefItems now1 st [note] cid).1
        note.note_id = some d := by
      show ((xhsPersistBriefItems now1 st [note] cid).1.items).find?
        (fun it => it.platform_item_id == note.note_id) = some d
      rw [hitems, find?_append_of_none _ _ _ hN]
      simp [List.find?, hdpid]
    obtain ⟨hst2, hnew2, hrec2⟩ :=
      xhsPersist_existing now2 cid (xhsPersistBriefItems now1 st [note] cid).1 note d hlook1
    refine ⟨?_, ?_, hst2, hnew2, ⟨d, hlook1, hrec2⟩⟩
    · show (((xhsPersistBriefItems now1 st [note] cid).1.items).filter
        (fun it => it.platform_item_id == note.note_id)).length = 1
      rw [hitems, List.filter_append, hfilx]
      simp [hdpid]
    · rw [hnew]
      rfl
  · obtain ⟨d, hdpid, hitems, hnew, _⟩ := bbPersist_fresh maxA now1 st brief hBN
    have hlook1 : getByPlatformItemId (bbPersistBriefItems maxA now1 st [brief]).1
        brief.bvid = some d := by
      show ((bbPersistBriefItems maxA now1 st [brief]).1.items).find?
        (fun it => it.platform_item_id == brief.bvid) = some d
      rw [hitems, find?_append_of_none _ _ _ hBN]
      simp [List.find?, hdpid]
    obtain ⟨hst2, hnew2, hrec2⟩ :=
      bbPersist_existing maxA now2 (bbPersistBriefItems maxA now1 st [brief]).1 brief d hlook1
    refine ⟨?_, ?_, hst2, hnew2, ⟨d, hlook1, hrec2⟩⟩
    · show (((bbPersistBriefItems maxA now1 st [brief]).1.items).filter
        (fun it => it.platform_item_id == brief.bvid)).length = 1
      rw [hitems, List.filter_append, hfilb]
      simp [hdpid]
    · rw [hnew]
      rfl

/-- Witness for C3 on the empty store with the example briefs. -/
theorem c3_witness :
    (itemCountFor exEmptyStore exNote.note_id = 0 ∧
     itemCountFor exEmptyStore exBrief.bvid = 0) ∧
    ((itemCountFor (xhsPersistBriefItems 1 exEmptyStore [exNote] "c1").1
        exNote.note_id = 1 ∧
      (xhsPersistBriefItems 1 exEmptyStore [exNote] "c1").2.newly_created.length = 1 ∧
      (xhsPersistBriefItems 2 (xhsPersistBriefItems 1 exEmptyStore [exNote] "c1").1
        [exNote] "c1").1 = (xhsPersistBriefItems 1 exEmptyStore [exNote] "c1").1 ∧
      (xhsPersistBriefItems 2 (xhsPersistBriefItems 1 exEmptyStore [exNote] "c1").1
        [exNote] "c1").2.newly_created = [] ∧
      (∃ ex, getByPlatformItemId (xhsPersistBriefItems 1 exEmptyStore [exNote] "c1").1
          exNote.note_id = some ex ∧
        ((xhsPersistBriefItems 2 (xhsPersistBriefItems 1 exEmptyStore [exNote] "c1").1
            [exNote] "c1").2.needs_recovery = [ex] ∨
         (xhsPersistBriefItems 2 (xhsPersistBriefItems 1 exEmptyStore [exNote] "c1").1
            [exNote] "c1").2.needs_recovery = []))) ∧
     (itemCountFor (bbPersistBriefItems 5 1 exEmptyStore [exBrief]).1 exBrief.bvid = 1 ∧
      (bbPersistBriefItems 5 1 exEmptyStore [exBrief]).2.newly_created.length = 1 ∧
      (bbPersistBriefItems 5 2 (bbPersistBriefItems 5 1 exEmptyStore [exBrief]).1
        [exBrief]).1 = (bbPersistBriefItems 5 1 exEmptyStore [exBrief]).1 ∧
      (bbPersistBriefItems 5 2 (bbPersistBriefItems 5 1 exEmptyStore [exBrief]).1
        [exBrief]).2.newly_created = [] ∧
      (∃ ex, getByPlatformItemId (bbPersistBriefItems 5 1 exEmptyStore [exBrief]).1
          exBrief.bvid = some ex ∧
        ((bbPersistBriefItems 5 2 (bbPersistBriefItems 5 1 exEmptyStore [exBrief]).1
            [exBrief]).2.needs_recovery = [ex] ∨
         (bbPersistBriefItems 5 2 (bbPersistBriefItems 5 1 exEmptyStore [exBrief]).1
            [exBrief]).2.needs_recovery = [])))) :=
  ⟨⟨rfl, rfl⟩, c3_idempotent_persistence 1 2 5 exEmptyStore "c1" exNote exBrief rfl rfl⟩
